import Mathlib

/-!
Verification of the docu-flow document-processing core against its
natural-language specification.

The development shallowly embeds the three spec'd components:

* the workflow execution engine of
  `documents_api/services/workflow_service.py`
  (`AdvancedWorkflowService`: `start_document_workflow`,
  `_check_approval_required`, `_extract_document_amount`,
  `_auto_approve_document`, `handle_approval_response` and the step
  execution machinery);
* the validation rule engine of
  `documents_api/services/validation_service.py` (`ValidationEngine`);
* the pattern-induction engine of
  `documents_api/services/pattern_analysis_service.py`
  (`PatternAnalysisService`).

Python scalars are embedded as an inductive `Value`; machine floats are
modelled by exact rationals (`ℚ`) — for every comparison the claims
exercise the float and the exact computation agree, which was checked
separately for the one delicate threshold (`unique_count < total * 0.3`);
Python `float(str)` is modelled on plain decimal literals, which covers
every string the code and the claims feed it. Django model rows become
Lean structures, the database becomes in-memory lists inside
`SystemState`, and every `asave()` becomes a functional update of that
state. Python exceptions are modelled by an explicit `Outcome.exn`
result that callers catch exactly where the source has `try/except`.
-/

/-- Embedded Python value, as stored in `Document.extracted_data` JSON:
strings, numbers (`num true q` an int, `num false q` a float, both with
exact rational magnitude), booleans, `None`, dicts and lists.  Python
`bool` is kept separate even though it is an `int` subclass; the
coercions below account for that. -/
inductive Value where
  | str (s : String)
  | num (isInt : Bool) (q : ℚ)
  | bool (b : Bool)
  | none
  | dict (entries : List (String × Value))
  | list (items : List Value)

/-- A Python exception class relevant to the embedded code:
`ValueError` or `TypeError`, with its message. -/
inductive PyErr where
  | valueError (msg : String)
  | typeError (msg : String)
deriving DecidableEq

deriving instance DecidableEq for Except

set_option maxRecDepth 4000

/-- Numeric value of a list of decimal digit characters (0 on empty),
most significant first. -/
def natOfDigits (cs : List Char) : ℕ :=
  cs.foldl (fun a c => a * 10 + (c.toNat - 48)) 0

/-- Python `str.strip()` on a character list: drop leading and trailing
whitespace. -/
def stripChars (cs : List Char) : List Char :=
  ((cs.dropWhile Char.isWhitespace).reverse.dropWhile Char.isWhitespace).reverse

/-- Python `float(s)` on a plain decimal literal: optional sign, digits
with at most one decimal point, surrounding whitespace stripped.
Exotic accepted forms (exponents, `inf`, `nan`, underscores) are not
produced by this code base and are modelled as parse failures. -/
def parseFloatStr (s : String) : Option ℚ :=
  let t := stripChars s.toList
  let body := match t with
    | '-' :: cs => cs
    | '+' :: cs => cs
    | cs => cs
  let sign : ℚ := match t with
    | '-' :: _ => -1
    | _ => 1
  match body.splitOn '.' with
  | [ip] =>
    if ip ≠ [] ∧ ip.all Char.isDigit then some (sign * (natOfDigits ip : ℚ))
    else Option.none
  | [ip, fp] =>
    if (ip ≠ [] ∨ fp ≠ []) ∧ ip.all Char.isDigit ∧ fp.all Char.isDigit then
      some (sign * ((natOfDigits ip : ℚ) +
        (natOfDigits fp : ℚ) / (10 : ℚ) ^ fp.length))
    else Option.none
  | _ => Option.none

/-- Python `float(x)` on an embedded value.  `float` accepts ints,
floats, bools (`int` subclass) and numeric strings; it raises
`ValueError` on a non-numeric string and `TypeError` on `None`, dicts
and lists. -/
def pyFloat : Value → Except PyErr ℚ
  | .num _ q => .ok q
  | .bool b => .ok (if b then 1 else 0)
  | .str s =>
    match parseFloatStr s with
    | some q => .ok q
    | Option.none => .error (.valueError ("could not convert string to float: " ++ s))
  | .none => .error (.typeError "float() argument must be a string or a real number, not NoneType")
  | .dict _ => .error (.typeError "float() argument must be a string or a real number, not dict")
  | .list _ => .error (.typeError "float() argument must be a string or a real number, not list")

/-- Python `str(x)` on an embedded value, exact on the scalar shapes the
pattern analyzers see (strings, ints, bools, `None`); float and
container renderings are approximated by an injective printer, which is
all the counting logic depends on. -/
def pyStr : Value → String
  | .str s => s
  | .num isInt q =>
    if isInt then toString q.num
    else if q.den = 1 then toString q.num ++ ".0"
    else toString q.num ++ "/" ++ toString q.den
  | .bool b => if b then "True" else "False"
  | .none => "None"
  | .dict es => "dict:" ++ toString (es.map (·.1))
  | .list xs => "list:" ++ toString xs.length

/-- Python truthiness of an embedded value (`if value:`). -/
def truthy : Value → Bool
  | .str s => s ≠ ""
  | .num _ q => q ≠ 0
  | .bool b => b
  | .none => false
  | .dict es => !es.isEmpty
  | .list xs => !xs.isEmpty

/-- `extracted_data` of a document: a JSON object, embedded as an
association list (first binding wins, mirroring dict key uniqueness). -/
abbrev ExtractedData := List (String × Value)

/-- Dict membership plus access: `d[k]` when `k in d`. -/
def lookupKey (d : ExtractedData) (k : String) : Option Value :=
  d.lookup k

/-- Python truthiness of a nullable string (`if not s:`): `None` and the
empty string are falsy. -/
def strTruthy : Option String → Bool
  | Option.none => false
  | some s => s ≠ ""

/-- Python truthiness of a nullable numeric column
(`if workflow.approval_threshold:`): `None` and `0` are falsy. -/
def numTruthy : Option ℚ → Bool
  | Option.none => false
  | some q => q ≠ 0

/-- Row of `documents_api.models.Document`, restricted to the columns the
embedded services read or write.  Users are identified by username. -/
structure Document where
  id : ℕ
  filename : String
  documentType : String
  extractedData : ExtractedData
  workflowStatus : Option String
  currentApprover : Option String

/-- Row of `documents_api.models.WorkflowStep`. -/
structure WorkflowStep where
  id : ℕ
  name : String
  description : String
  stepOrder : ℕ
  stepType : String
  approver : Option String
  approvalGroup : Option String
  requiresAllApprovers : Bool
  integrationSystem : Option String
  conditionField : Option String
  conditionValue : Option String
  conditionOperator : Option String
deriving DecidableEq

/-- Row of `documents_api.models.Workflow`, with its ordered steps
(`related_name='steps'`, default ordering `step_order`). -/
structure Workflow where
  id : ℕ
  name : String
  requiresApproval : Bool
  approvalThreshold : Option ℚ
  autoApproveBelowThreshold : Bool
  steps : List WorkflowStep
deriving DecidableEq

/-- The JSON blob `WorkflowExecution.execution_data`, restricted to the
keys the service reads or writes.  Optional fields model keys that may
be absent; the getters apply the code's `.get(key, default)` defaults. -/
structure ExecutionData where
  startTime : Option ℕ := Option.none
  stepsCompleted : ℕ := 0
  totalSteps : ℕ := 0
  currentStepName : Option String := Option.none
  stepStartTime : Option ℕ := Option.none
  stepsSkipped : ℕ := 0
  skipReason : Option String := Option.none
  pendingApprovals : List ℕ := []
  currentApprovalLevel : Option ℕ := Option.none
  autoApproved : Bool := false
  autoApprovalReason : Option String := Option.none
  completedAt : Option ℕ := Option.none
  integrationResults : ℕ := 0
deriving DecidableEq

/-- Row of `documents_api.models.WorkflowExecution`. -/
structure WorkflowExecution where
  id : ℕ
  documentId : ℕ
  workflowId : ℕ
  status : String
  currentStep : Option ℕ
  executionData : ExecutionData
  errorLog : Option String
  completedAt : Option ℕ
  startedBy : Option String
deriving DecidableEq

/-- Row of `documents_api.models.DocumentApproval`.  The `approver`
foreign key is non-nullable, and the service never saves an approval
without assigning it. -/
structure DocumentApproval where
  id : ℕ
  documentId : ℕ
  workflowStepId : ℕ
  approver : String
  approvalLevel : ℕ
  status : String
  comments : Option String
  reviewedAt : Option ℕ
  dueDate : Option ℕ
  delegatedTo : Option String
deriving DecidableEq

/-- Row of `documents_api.models.ValidationRule`, the columns the
validation and pattern-analysis services use. -/
structure ValidationRule where
  name : String
  documentType : String
  fieldName : String
  ruleType : String
  rulePattern : String
  description : String
  referenceField : Option String
  calculationType : Option String
  tolerance : Option ℚ
  autoCreated : Bool
  isActive : Bool
deriving DecidableEq

/-- Row of `documents_api.models.IntegrationConfiguration`, together
with the reply the external system would give to
`integration_service.send_to_external_system` — the external
collaborator's behaviour, recorded as data so the engine's reaction to
it can be embedded. -/
structure IntegrationConfig where
  integrationType : String
  status : String
  externalSuccess : Bool
  externalError : String
deriving DecidableEq

/-- The persistent store the workflow service works against: the model
tables as lists (rows in insertion order) plus a fresh-id counter for
created rows and the user-group table behind `_get_approver_from_group`. -/
structure SystemState where
  documents : List Document
  workflows : List Workflow
  executions : List WorkflowExecution
  approvals : List DocumentApproval
  integrations : List IntegrationConfig
  groups : List (String × List String)
  rules : List ValidationRule
  nextId : ℕ

/-- The five candidate amount fields of `_extract_document_amount`, in
probe order. -/
def amountFields : List String :=
  ["total", "amount", "total_amount", "grand_total", "subtotal"]

/-- One probe of `_extract_document_amount`: a `{value: …}` dict is
unwrapped through `float(...)` (`ValueError`/`TypeError` means move on),
a bare int/float (bool included, as an `int` subclass) is taken
directly, anything else falls through to the next field. -/
def extractFieldAmount : Value → Option ℚ
  | .dict entries =>
    match lookupKey entries "value" with
    | some inner =>
      match pyFloat inner with
      | .ok q => some q
      | .error _ => Option.none
    | Option.none => Option.none
  | .num _ q => some q
  | .bool b => some (if b then 1 else 0)
  | _ => Option.none

/-- Loop body of `_extract_document_amount` over the candidate field
names. -/
def findAmount : List String → ExtractedData → Option ℚ
  | [], _ => Option.none
  | f :: fs, data =>
    match lookupKey data f with
    | some v =>
      match extractFieldAmount v with
      | some q => some q
      | Option.none => findAmount fs data
    | Option.none => findAmount fs data

/-- `AdvancedWorkflowService._extract_document_amount`: probe the five
monetary fields in order; empty/missing `extracted_data` yields `None`. -/
def extract_document_amount (doc : Document) : Option ℚ :=
  if doc.extractedData.isEmpty then Option.none
  else findAmount amountFields doc.extractedData

/-- Shape test on a document's extracted data: each of the five
monetary fields is either absent or holds a plain string scalar. -/
def monetary_fields_string_or_absent (data : ExtractedData) : Bool :=
  amountFields.all (fun f =>
    match lookupKey data f with
    | Option.none => true
    | some (Value.str _) => true
    | some _ => false)

/-- `AdvancedWorkflowService._check_approval_required`: `False` exactly
when the document can be auto-approved.  Mirrors the Python truthiness
tests: a `0` threshold and a `0` extracted amount both skip the
auto-approval branch. -/
def check_approval_required (doc : Document) (wf : Workflow) : Bool :=
  if ¬ wf.requiresApproval then false
  else if numTruthy wf.approvalThreshold then
    match extract_document_amount doc with
    | some amount =>
      if amount ≠ 0 ∧ amount < wf.approvalThreshold.getD 0 ∧
          wf.autoApproveBelowThreshold then false
      else true
    | Option.none => true
  else true

/-- Shape of the dict returned by a workflow-service entry point.  Each
constructor is one of the literal dict shapes built in
`workflow_service.py`; string payloads carry the fields the claims
inspect. `pyNone` is Python's implicit `None` return. -/
inductive WfResult where
  | error (msg : String)
  | failed (err : String)
  | startFailed (err : String) (workflowId : ℕ) (workflowName : String)
  | waiting (msg : String)
  | rejectedRes (msg : String)
  | delegatedRes (msg : String)
  | completedRes (msg : String)
  | approvalPending (approvalId : ℕ) (approver : String) (dueDate : ℕ)
  | autoApproved (executionId : ℕ) (documentId : ℕ) (workflowId : ℕ) (reason : String)
  | started (executionId : ℕ) (documentId : ℕ) (workflowId : ℕ) (workflowName : String)
      (currentStep : String) (stepResult : WfResult)
  | pyNone
deriving DecidableEq

/-- A computation step either returns a value or raises: `exn` models a
propagating Python exception, to be caught where the source has
`try/except`.  The state carries every `asave()` already performed. -/
inductive Outcome where
  | ok (r : WfResult)
  | exn (msg : String)
deriving DecidableEq

def findDocument (st : SystemState) (id : ℕ) : Option Document :=
  st.documents.find? (fun d => d.id == id)

def findWorkflow (st : SystemState) (id : ℕ) : Option Workflow :=
  st.workflows.find? (fun w => w.id == id)

def findExecution (st : SystemState) (id : ℕ) : Option WorkflowExecution :=
  st.executions.find? (fun e => e.id == id)

def findApproval (st : SystemState) (id : ℕ) : Option DocumentApproval :=
  st.approvals.find? (fun a => a.id == id)

/-- Resolve a `WorkflowStep` foreign key across all workflows. -/
def findStep (st : SystemState) (id : ℕ) : Option WorkflowStep :=
  (st.workflows.flatMap (fun w => w.steps)).find? (fun s => s.id == id)

/-- `document.workflow_executions.afirst()`: first row of the unordered
related queryset, modelled as first in insertion order. -/
def firstExecutionFor (st : SystemState) (docId : ℕ) : Option WorkflowExecution :=
  st.executions.find? (fun e => e.documentId == docId)

/-- `asave()` on an existing document row. -/
def updateDocument (st : SystemState) (d : Document) : SystemState :=
  { st with documents := st.documents.map (fun x => if x.id == d.id then d else x) }

/-- `asave()` on an existing execution row. -/
def updateExecution (st : SystemState) (e : WorkflowExecution) : SystemState :=
  { st with executions := st.executions.map (fun x => if x.id == e.id then e else x) }

/-- `asave()` on an existing approval row. -/
def updateApproval (st : SystemState) (a : DocumentApproval) : SystemState :=
  { st with approvals := st.approvals.map (fun x => if x.id == a.id then a else x) }

/-- Allocate a primary key for a newly inserted row. -/
def allocId (st : SystemState) : ℕ × SystemState :=
  (st.nextId, { st with nextId := st.nextId + 1 })

/-- `AdvancedWorkflowService._get_approver_from_group`: level 1 takes the
first group member; higher levels index `level - 1`, falling back to the
last member, or `None` for an empty group. -/
def get_approver_from_group (st : SystemState) (groupName : String) (level : ℕ) :
    Option String :=
  let users := (st.groups.lookup groupName).getD []
  if level == 1 then users.head?
  else if users.length ≥ level then users.get? (level - 1)
  else users.getLast?

/-- Substring test, Python `needle in hay`. -/
def strContainsSub (hay needle : String) : Bool :=
  let h := hay.toList
  let n := needle.toList
  (List.range (h.length + 1)).any (fun i => n.isPrefixOf (h.drop i))

/-- `AdvancedWorkflowService._get_document_field_value`: dotted names
walk nested dicts; the final value is unwrapped from a `{value, …}`
confidence pair. -/
def get_document_field_value (doc : Document) (fieldName : String) : Option Value :=
  if doc.extractedData.isEmpty then Option.none
  else
    let raw : Option Value :=
      if fieldName.contains '.' then
        (fieldName.splitOn ".").foldl
          (fun acc key =>
            match acc with
            | some (Value.dict entries) => lookupKey entries key
            | _ => Option.none)
          (some (Value.dict doc.extractedData))
      else lookupKey doc.extractedData fieldName
    match raw with
    | some (Value.dict entries) =>
      match lookupKey entries "value" with
      | some inner => some inner
      | Option.none => some (Value.dict entries)
    | v => v

/-- `float()` applied to a nullable `condition_value` column:
`float(None)` raises `TypeError`, both exception classes are caught by
the comparison operators. -/
def floatOfOptStr : Option String → Option ℚ
  | Option.none => Option.none
  | some s => parseFloatStr s

/-- Python `str(x)` of a nullable column. -/
def strOfOpt : Option String → String
  | Option.none => "None"
  | some s => s

/-- `AdvancedWorkflowService._check_step_conditions`: vacuously true
without a `condition_field`; a missing field value fails; `eq` compares
the `str()` forms, `gt`/`lt` compare as floats (coercion failure is
`False`), `contains` is a case-insensitive substring test, any other
operator is `False`. -/
def check_step_conditions (doc : Document) (step : WorkflowStep) : Bool :=
  if ¬ strTruthy step.conditionField then true
  else
    match get_document_field_value doc (step.conditionField.getD "") with
    | Option.none => false
    | some fv =>
      let op := step.conditionOperator.getD "None"
      if op = "eq" then pyStr fv == strOfOpt step.conditionValue
      else if op = "gt" then
        match pyFloat fv, floatOfOptStr step.conditionValue with
        | .ok a, some b => a > b
        | _, _ => false
      else if op = "lt" then
        match pyFloat fv, floatOfOptStr step.conditionValue with
        | .ok a, some b => a < b
        | _, _ => false
      else if op = "contains" then
        strContainsSub (pyStr fv).toLower (strOfOpt step.conditionValue).toLower
      else false

/-- `AdvancedWorkflowService._handle_approval_rejected`: the execution is
failed with the rejecting approver and comments in `error_log`, the
document is marked rejected and its current approver cleared.  A missing
execution raises (`None.status`), caught by the caller's `except`. -/
def handle_approval_rejected (st : SystemState) (approval : DocumentApproval)
    (execOpt : Option WorkflowExecution) (now : ℕ) : SystemState × Outcome :=
  match execOpt with
  | Option.none => (st, .exn "AttributeError: NoneType has no attribute status")
  | some exec =>
    let exec2 := { exec with
      status := "failed"
      errorLog := some ("Rejected by " ++ approval.approver ++ ": " ++
        strOfOpt approval.comments)
      completedAt := some now }
    let st2 := updateExecution st exec2
    match findDocument st2 exec.documentId with
    | Option.none => (st2, .exn "Document matching query does not exist")
    | some doc =>
      let doc2 := { doc with workflowStatus := some "rejected", currentApprover := Option.none }
      (updateDocument st2 doc2,
        .ok (.rejectedRes ("Workflow rejected by " ++ approval.approver)))

/-- `AdvancedWorkflowService._handle_approval_delegated`: the source is a
stub — it performs no state change and returns a success dict ("This
would implement delegation logic / For now, just return success"). -/
def handle_approval_delegated (st : SystemState) : SystemState × Outcome :=
  (st, .ok (.delegatedRes "Approval delegated successfully"))

/-- `AdvancedWorkflowService._execute_approval_step`: create a pending
`DocumentApproval` due in 24 hours for the step's approver (direct or
resolved from the group), mark the document pending with that approver,
notify (external e-mail, no store effect) and record the approval id in
`execution_data.pending_approvals`.  Unresolvable approvers return a
failed dict before anything is saved. -/
def execute_approval_step (st : SystemState) (exec : WorkflowExecution)
    (step : WorkflowStep) (now : ℕ) : SystemState × Outcome :=
  let level := exec.executionData.currentApprovalLevel.getD 1
  let approverOpt : Option (Option String) :=
    match step.approver with
    | some a => some (some a)
    | Option.none =>
      if strTruthy step.approvalGroup then
        some (get_approver_from_group st (step.approvalGroup.getD "") level)
      else Option.none
  match approverOpt with
  | Option.none => (st, .ok (.failed "No approver specified"))
  | some Option.none => (st, .ok (.failed "No approver found in group"))
  | some (some approverName) =>
    let (aid, st1) := allocId st
    let approval : DocumentApproval := {
      id := aid
      documentId := exec.documentId
      workflowStepId := step.id
      approver := approverName
      approvalLevel := level
      status := "pending"
      comments := Option.none
      reviewedAt := Option.none
      dueDate := some (now + 24 * 60 * 60)
      delegatedTo := Option.none }
    let st2 := { st1 with approvals := st1.approvals ++ [approval] }
    match findDocument st2 exec.documentId with
    | Option.none => (st2, .exn "Document matching query does not exist")
    | some doc =>
      let doc2 := { doc with
        workflowStatus := some "pending"
        currentApprover := some approverName }
      let st3 := updateDocument st2 doc2
      let exec2 := { exec with executionData := { exec.executionData with
        pendingApprovals := exec.executionData.pendingApprovals ++ [aid] } }
      let st4 := updateExecution st3 exec2
      (st4, .ok (.approvalPending aid approverName (now + 24 * 60 * 60)))

/-- Argument tag selecting which step-machinery method runs next.  The
six mutually recursive methods of `AdvancedWorkflowService` are embedded
as one fuel-indexed dispatcher (`engine_run`) so that the recursion is
structural on the fuel; the named wrappers below carry the source
names. -/
inductive EngineCall where
  | execStep (exec : WorkflowExecution) (step : WorkflowStep)
  | skipStep (exec : WorkflowExecution) (step : WorkflowStep)
  | integrationStep (exec : WorkflowExecution) (step : WorkflowStep)
  | notificationStep (exec : WorkflowExecution) (step : WorkflowStep)
  | processingStep (exec : WorkflowExecution)
  | moveNext (execOpt : Option WorkflowExecution)

/-- The step machinery of `AdvancedWorkflowService`, one arm per source
method (see the wrappers below for the method-by-method reading).
`fuel` bounds the mutual recursion; every entry point passes strictly
more than any reachable chain length — each advance round consumes at
most three units and strictly increases the current `step_order` — so
the `recursion limit` arm, which Python does not have, is never
reached from an entry point. -/
def engine_run : ℕ → SystemState → EngineCall → ℕ → SystemState × Outcome
  | 0, st, _, _ => (st, .exn "recursion limit")
  | fuel + 1, st, call, now =>
    match call with
    | .execStep exec step =>
      -- `_execute_workflow_step`: record the step in execution_data,
      -- skip on a failed condition, dispatch on step_type (`else` arm =
      -- processing); its try/except turns any exception from below into
      -- a failed execution and a failed dict.
      let exec1 := { exec with executionData := { exec.executionData with
        currentStepName := some step.name, stepStartTime := some now } }
      let st1 := updateExecution st exec1
      let inner : SystemState × Outcome :=
        match findDocument st1 exec1.documentId with
        | Option.none => (st1, .exn "Document matching query does not exist")
        | some doc =>
          if ¬ check_step_conditions doc step then
            engine_run fuel st1 (.skipStep exec1 step) now
          else if step.stepType = "approval" then execute_approval_step st1 exec1 step now
          else if step.stepType = "integration" then
            engine_run fuel st1 (.integrationStep exec1 step) now
          else if step.stepType = "notification" then
            engine_run fuel st1 (.notificationStep exec1 step) now
          else engine_run fuel st1 (.processingStep exec1) now
      match inner with
      | (st2, .exn msg) =>
        let cur := (findExecution st2 exec.id).getD exec1
        let cur2 := { cur with errorLog := some msg, status := "failed" }
        (updateExecution st2 cur2, .ok (.failed msg))
      | okOut => okOut
    | .skipStep exec step =>
      -- `_skip_step`: count the skip, record the reason, move on.
      let exec2 := { exec with executionData := { exec.executionData with
        stepsSkipped := exec.executionData.stepsSkipped + 1
        skipReason := some ("Step " ++ step.name ++ " conditions not met") } }
      let st2 := updateExecution st exec2
      engine_run fuel st2 (.moveNext (some exec2)) now
    | .integrationStep exec step =>
      -- `_execute_integration_step`: look up the active configuration,
      -- push to the external system, record the result, advance only on
      -- success; lookup failures are caught locally as failed dicts.
      if ¬ strTruthy step.integrationSystem then
        (st, .ok (.failed "No integration system specified"))
      else
        match st.integrations.filter (fun c =>
            c.integrationType == step.integrationSystem.getD "" &&
            c.status == "active") with
        | [cfg] =>
          let exec2 := { exec with executionData := { exec.executionData with
            integrationResults := exec.executionData.integrationResults + 1 } }
          let st2 := updateExecution st exec2
          if cfg.externalSuccess then engine_run fuel st2 (.moveNext (some exec2)) now
          else (st2, .ok (.failed cfg.externalError))
        | [] => (st, .ok (.failed "IntegrationConfiguration matching query does not exist"))
        | _ => (st, .ok (.failed "get() returned more than one IntegrationConfiguration"))
    | .notificationStep exec _ =>
      -- `_execute_notification_step`: send the notification (external
      -- e-mail, no store effect) and move on.
      engine_run fuel st (.moveNext (some exec)) now
    | .processingStep exec =>
      -- `_execute_processing_step`: just move on.
      engine_run fuel st (.moveNext (some exec)) now
    | .moveNext execOpt =>
      -- `_move_to_next_step`: advance to the next step_order and execute
      -- it, or complete the execution and approve the document.  A
      -- `None` execution or current step raises.  Note: no check of the
      -- execution own status before advancing.
      match execOpt with
      | Option.none => (st, .exn "AttributeError: NoneType has no attribute current_step")
      | some exec =>
        match exec.currentStep with
        | Option.none => (st, .exn "AttributeError: NoneType has no attribute step_order")
        | some curId =>
          match findStep st curId with
          | Option.none => (st, .exn "WorkflowStep matching query does not exist")
          | some cur =>
            match findWorkflow st exec.workflowId with
            | Option.none => (st, .exn "Workflow matching query does not exist")
            | some wf =>
              match (wf.steps.filter (fun s => s.stepOrder == cur.stepOrder + 1)).head? with
              | some nxt =>
                let exec2 := { exec with
                  currentStep := some nxt.id
                  executionData := { exec.executionData with
                    stepsCompleted := exec.executionData.stepsCompleted + 1 } }
                let st2 := updateExecution st exec2
                engine_run fuel st2 (.execStep exec2 nxt) now
              | Option.none =>
                let exec2 := { exec with
                  status := "completed"
                  completedAt := some now
                  executionData := { exec.executionData with completedAt := some now } }
                let st2 := updateExecution st exec2
                match findDocument st2 exec.documentId with
                | Option.none => (st2, .exn "Document matching query does not exist")
                | some doc =>
                  let doc2 := { doc with
                    workflowStatus := some "approved"
                    currentApprover := Option.none }
                  (updateDocument st2 doc2,
                    .ok (.completedRes "Workflow completed successfully"))

/-- `AdvancedWorkflowService._execute_workflow_step`. -/
def execute_workflow_step (fuel : ℕ) (st : SystemState) (exec : WorkflowExecution)
    (step : WorkflowStep) (now : ℕ) : SystemState × Outcome :=
  engine_run fuel st (.execStep exec step) now

/-- `AdvancedWorkflowService._move_to_next_step`. -/
def move_to_next_step (fuel : ℕ) (st : SystemState)
    (execOpt : Option WorkflowExecution) (now : ℕ) : SystemState × Outcome :=
  engine_run fuel st (.moveNext execOpt) now

/-- Fuel budget passed to the step machinery.  One advance round
(`move_to_next_step` plus `execute_workflow_step` plus one handler)
consumes at most three units and strictly increases the current
`step_order`, so twice the total step count plus a constant strictly
exceeds every reachable recursion depth: the Python code, which has no
such bound, never reaches the `recursion limit` arm. -/
def fuelFor (st : SystemState) : ℕ :=
  3 * (st.workflows.map (fun w => w.steps.length)).sum + 8

/-- `AdvancedWorkflowService._handle_approval_approved`: when the step
requires all approvers and some sibling approval at the same level is
still pending, report waiting; otherwise move the execution on. -/
def handle_approval_approved (st : SystemState) (approval : DocumentApproval)
    (execOpt : Option WorkflowExecution) (now : ℕ) : SystemState × Outcome :=
  match findStep st approval.workflowStepId with
  | Option.none => (st, .exn "WorkflowStep matching query does not exist")
  | some step =>
    if step.requiresAllApprovers ∧
        0 < (st.approvals.filter (fun a =>
          a.workflowStepId == step.id &&
          a.approvalLevel == approval.approvalLevel &&
          a.status == "pending")).length then
      (st, .ok (.waiting "Waiting for other approvers"))
    else move_to_next_step (fuelFor st) st execOpt now

/-- `AdvancedWorkflowService.handle_approval_response`: fetch the
approval, refuse a responder who is not the assigned approver, record
status/comments/review time, then dispatch on the action; any unknown
action falls through to Python's implicit `None`.  The enclosing
`try/except` converts a propagating exception into an error dict
(keeping whatever was already saved). -/
def handle_approval_response (st : SystemState) (approvalId : ℕ)
    (approver : String) (action : String) (comments : Option String)
    (now : ℕ) : SystemState × WfResult :=
  let inner : SystemState × Outcome :=
    match findApproval st approvalId with
    | Option.none => (st, .exn "DocumentApproval matching query does not exist")
    | some approval =>
      if approval.approver ≠ approver then (st, .ok (.error "Unauthorized approver"))
      else
        let approval2 := { approval with
          status := action
          comments := some (comments.getD "")
          reviewedAt := some now }
        let st1 := updateApproval st approval2
        match findDocument st1 approval2.documentId with
        | Option.none => (st1, .exn "Document matching query does not exist")
        | some doc =>
          let execOpt := firstExecutionFor st1 doc.id
          if action = "approved" then handle_approval_approved st1 approval2 execOpt now
          else if action = "rejected" then
            handle_approval_rejected st1 approval2 execOpt now
          else if action = "delegated" then handle_approval_delegated st1
          else (st1, .ok .pyNone)
  match inner with
  | (st2, .exn msg) => (st2, .error msg)
  | (st2, .ok r) => (st2, r)

/-- `AdvancedWorkflowService._auto_approve_document`: insert an already
`completed` execution flagged `auto_approved` and mark the document
approved; no step is ever touched. -/
def auto_approve_document (st : SystemState) (doc : Document) (wf : Workflow)
    (now : ℕ) : SystemState × WfResult :=
  let (eid, st1) := allocId st
  let exec : WorkflowExecution := {
    id := eid
    documentId := doc.id
    workflowId := wf.id
    status := "completed"
    currentStep := Option.none
    executionData := { autoApproved := true
                       autoApprovalReason := some "Below threshold amount"
                       completedAt := some now }
    errorLog := Option.none
    completedAt := Option.none
    startedBy := Option.none }
  let st2 := { st1 with executions := st1.executions ++ [exec] }
  let st3 := updateDocument st2 { doc with workflowStatus := some "approved" }
  (st3, .autoApproved eid doc.id wf.id "Document auto-approved based on workflow criteria")

/-- The non-auto-approval remainder of
`AdvancedWorkflowService.start_document_workflow`: insert a `started`
execution, fail it if the workflow has no step of order 1, otherwise
mark it `in_progress` on the first step and execute that step.  The
surrounding `try/except` yields the failed dict on a propagating
exception.  (The in-memory `active_workflows` monitoring cache the
source also fills is process-local state with no persistent effect and
is not part of the embedded store.) -/
def start_workflow_normal (st : SystemState) (doc : Document) (wf : Workflow)
    (startedBy : Option String) (now : ℕ) : SystemState × WfResult :=
  let (eid, st1) := allocId st
  let exec : WorkflowExecution := {
    id := eid
    documentId := doc.id
    workflowId := wf.id
    status := "started"
    currentStep := Option.none
    executionData := { startTime := some now
                       stepsCompleted := 0
                       totalSteps := wf.steps.length }
    errorLog := Option.none
    completedAt := Option.none
    startedBy := startedBy }
  let st2 := { st1 with executions := st1.executions ++ [exec] }
  match (wf.steps.filter (fun s => s.stepOrder == 1)).head? with
  | Option.none =>
    let exec2 := { exec with status := "failed", errorLog := some "No steps defined in workflow" }
    (updateExecution st2 exec2,
      .startFailed "No steps defined in this workflow" wf.id wf.name)
  | some firstStep =>
    let exec2 := { exec with currentStep := some firstStep.id, status := "in_progress" }
    let st3 := updateExecution st2 exec2
    match execute_workflow_step (fuelFor st3) st3 exec2 firstStep now with
    | (st4, .ok r) => (st4, .started eid doc.id wf.id wf.name firstStep.name r)
    | (st4, .exn msg) => (st4, .startFailed msg wf.id wf.name)

/-- `AdvancedWorkflowService.start_document_workflow`: auto-approve when
the workflow requires approval but `_check_approval_required` says the
document clears the threshold test; otherwise run the normal path. -/
def start_document_workflow (st : SystemState) (doc : Document) (wf : Workflow)
    (startedBy : Option String) (now : ℕ) : SystemState × WfResult :=
  if wf.requiresApproval ∧ ¬ check_approval_required doc wf then
    auto_approve_document st doc wf now
  else start_workflow_normal st doc wf startedBy now

/-- One regex atom of the modelled `re` subset. -/
inductive ReAtom where
  | lit (c : Char)
  | anyChar
  | digit
  | word
  | space
  | cls (neg : Bool) (singles : List Char) (ranges : List (Char × Char))
deriving DecidableEq

/-- Quantifier attached to an atom. -/
inductive ReQuant where
  | one
  | opt
  | star
  | plus
  | rep (lo : ℕ) (hi : Option ℕ)
deriving DecidableEq

/-- Parsed pattern: atom/quantifier pairs and whether a final `$` anchors
the end. -/
structure ReParsed where
  pieces : List (ReAtom × ReQuant)
  anchorEnd : Bool
deriving DecidableEq

def reAtomMatches (a : ReAtom) (c : Char) : Bool :=
  match a with
  | .lit l => c == l
  | .anyChar => c ≠ '\n'
  | .digit => c.isDigit
  | .word => c.isAlphanum || c == '_'
  | .space => c.isWhitespace
  | .cls neg singles ranges =>
    let inside := singles.contains c ||
      ranges.any (fun r => r.1 ≤ c ∧ c ≤ r.2)
    if neg then !inside else inside

/-- Backtracking acceptance for the parsed pattern, `re.match` style:
anchored at the start, free at the end unless `$` was present.  `fuel`
only bounds the search; `reMatch` always passes enough. -/
def reMatchSeq : ℕ → List (ReAtom × ReQuant) → List Char → Bool → Bool
  | 0, _, _, _ => false
  | fuel + 1, ps, cs, anchorEnd =>
    match ps with
    | [] => if anchorEnd then cs.isEmpty else true
    | (a, q) :: rest =>
      let tryOne : Bool :=
        match cs with
        | c :: cs2 => reAtomMatches a c && reMatchSeq fuel ((a, q) :: rest) cs2 anchorEnd
        | [] => false
      match q with
      | .one =>
        match cs with
        | c :: cs2 => reAtomMatches a c && reMatchSeq fuel rest cs2 anchorEnd
        | [] => false
      | .opt =>
        reMatchSeq fuel rest cs anchorEnd ||
          (match cs with
           | c :: cs2 => reAtomMatches a c && reMatchSeq fuel rest cs2 anchorEnd
           | [] => false)
      | .star => reMatchSeq fuel rest cs anchorEnd || tryOne
      | .plus =>
        match cs with
        | c :: cs2 => reAtomMatches a c && reMatchSeq fuel ((a, .star) :: rest) cs2 anchorEnd
        | [] => false
      | .rep lo hi =>
        if 0 < lo then
          match cs with
          | c :: cs2 => reAtomMatches a c &&
              reMatchSeq fuel ((a, .rep (lo - 1) (hi.map (· - 1))) :: rest) cs2 anchorEnd
          | [] => false
        else
          match hi with
          | Option.none => reMatchSeq fuel ((a, .star) :: rest) cs anchorEnd
          | some h =>
            if h = 0 then reMatchSeq fuel rest cs anchorEnd
            else reMatchSeq fuel rest cs anchorEnd ||
              (match cs with
               | c :: cs2 => reAtomMatches a c &&
                   reMatchSeq fuel ((a, .rep 0 (some (h - 1))) :: rest) cs2 anchorEnd
               | [] => false)

/-- Sum of explicit repetition bounds, used to size the search fuel. -/
def reRepBound (ps : List (ReAtom × ReQuant)) : ℕ :=
  ps.foldl (fun acc p =>
    match p.2 with
    | .rep lo hi => acc + lo + (hi.getD lo) + 1
    | _ => acc + 1) 0

def parseClassBody : List Char → List Char → List (Char × Char) →
    Option (ReAtom × List Char)
  | ']' :: rest, singles, ranges =>
    some (ReAtom.cls false singles.reverse ranges.reverse, rest)
  | a :: '-' :: ']' :: rest, singles, ranges =>
    some (ReAtom.cls false (('-') :: a :: singles).reverse ranges.reverse, rest)
  | '\\' :: c :: rest, singles, ranges =>
    if c = 'd' ∨ c = 's' ∨ c = 'w' then Option.none
    else parseClassBody rest (c :: singles) ranges
  | a :: '-' :: b :: rest, singles, ranges =>
    parseClassBody rest singles ((a, b) :: ranges)
  | c :: rest, singles, ranges => parseClassBody rest (c :: singles) ranges
  | [], _, _ => Option.none

/-- Parse one atom of the modelled subset. -/
def parseReAtom : List Char → Option (ReAtom × List Char)
  | '\\' :: c :: rest =>
    if c = 'd' then some (.digit, rest)
    else if c = 'w' then some (.word, rest)
    else if c = 's' then some (.space, rest)
    else some (.lit c, rest)
  | '[' :: '^' :: rest =>
    match parseClassBody rest [] [] with
    | some (.cls _ ss rs, rest2) => some (.cls true ss rs, rest2)
    | _ => Option.none
  | '[' :: rest =>
    match parseClassBody rest [] [] with
    | some (a, rest2) => some (a, rest2)
    | _ => Option.none
  | '.' :: rest => some (.anyChar, rest)
  | c :: rest =>
    if c = '*' ∨ c = '+' ∨ c = '?' ∨ c = '{' ∨ c = '$' ∨ c = ')' ∨ c = '(' ∨
        c = '|' ∨ c = ']' then Option.none
    else some (.lit c, rest)
  | [] => Option.none

/-- Parse a quantifier following an atom (if any). -/
def parseReQuant : List Char → ReQuant × List Char
  | '*' :: rest => (.star, rest)
  | '+' :: rest => (.plus, rest)
  | '?' :: rest => (.opt, rest)
  | '{' :: rest =>
    let digitsLo := rest.takeWhile Char.isDigit
    let afterLo := rest.dropWhile Char.isDigit
    match afterLo with
    | '}' :: rest2 =>
      if digitsLo.isEmpty then (.one, '{' :: rest)
      else (.rep (natOfDigits digitsLo) (some (natOfDigits digitsLo)), rest2)
    | ',' :: afterComma =>
      let digitsHi := afterComma.takeWhile Char.isDigit
      let afterHi := afterComma.dropWhile Char.isDigit
      match afterHi with
      | '}' :: rest2 =>
        if digitsLo.isEmpty then (.one, '{' :: rest)
        else if digitsHi.isEmpty then (.rep (natOfDigits digitsLo) Option.none, rest2)
        else (.rep (natOfDigits digitsLo) (some (natOfDigits digitsHi)), rest2)
      | _ => (.one, '{' :: rest)
    | _ => (.one, '{' :: rest)
  | cs => (.one, cs)

def parseRePieces : ℕ → List Char → Option (List (ReAtom × ReQuant) × Bool)
  | 0, _ => Option.none
  | _ + 1, [] => some ([], false)
  | _ + 1, ['$'] => some ([], true)
  | fuel + 1, cs =>
    match parseReAtom cs with
    | Option.none => Option.none
    | some (a, rest) =>
      let (q, rest2) := parseReQuant rest
      match parseRePieces fuel rest2 with
      | some (ps, anch) => some ((a, q) :: ps, anch)
      | Option.none => Option.none

/-- Model of Python `re.compile` on the subset the repository uses:
literals, `.`, `\\d`/`\\w`/`\\s`, character classes, `?`/`*`/`+` and
brace repetitions, a leading `^` and a trailing `$`.  A pattern outside
the subset is treated like `re.error`. -/
def parseRegex (pattern : String) : Option ReParsed :=
  let cs := pattern.toList
  let body := match cs with
    | '^' :: rest => rest
    | rest => rest
  match parseRePieces (body.length + 1) body with
  | some (ps, anch) => some { pieces := ps, anchorEnd := anch }
  | Option.none => Option.none

/-- Model of Python `re.match(pattern, s)` truthiness on the modelled
subset: does a match start at the beginning of `s`? -/
def reMatch (re : ReParsed) (s : String) : Bool :=
  let cs := s.toList
  reMatchSeq ((cs.length + 1) * (re.pieces.length + reRepBound re.pieces + 2))
    re.pieces cs re.anchorEnd

/-- Python `str.strip()`. -/
def pyStripStr (s : String) : String :=
  String.mk (stripChars s.toList)

/-- Approximate rendering of a float into a message (`repr` writes
integral floats with a trailing `.0`); only used inside report strings,
never compared numerically. -/
def ratRepr (q : ℚ) : String :=
  if q.den = 1 then toString q.num ++ ".0"
  else toString q.num ++ "/" ++ toString q.den

/-- Python `s.split(sep, 1)` when `sep` occurs in `s`. -/
def splitFirst (s : String) (sep : Char) : Option (String × String) :=
  let cs := s.toList
  let pre := cs.takeWhile (fun c => c ≠ sep)
  if pre.length = cs.length then Option.none
  else some (String.mk pre, String.mk (cs.drop (pre.length + 1)))

/-- `ValidationEngine._get_field_value`, nested walk: each traversed
value is unwrapped from a `{value, …}` confidence pair before the next
key is applied. -/
def vGetNested : List String → Value → Option Value
  | [], v => some v
  | k :: ks, v =>
    match v with
    | .dict entries =>
      match lookupKey entries k with
      | some v2 =>
        let v3 :=
          match v2 with
          | .dict es2 =>
            match lookupKey es2 "value" with
            | some inner => inner
            | Option.none => Value.dict es2
          | other => other
        vGetNested ks v3
      | Option.none => Option.none
    | _ => Option.none

/-- `ValidationEngine._get_field_value`: dotted names walk nested dicts
(unwrapping confidence pairs at each level); direct names unwrap a
top-level confidence pair. -/
def vGetFieldValue (data : ExtractedData) (fieldName : String) : Option Value :=
  if data.isEmpty then Option.none
  else if fieldName.contains '.' then
    vGetNested (fieldName.splitOn ".") (Value.dict data)
  else
    match lookupKey data fieldName with
    | some (Value.dict es) =>
      match lookupKey es "value" with
      | some inner => some inner
      | Option.none => some (Value.dict es)
    | v => v

/-- `str(e)` of a modelled exception. -/
def pyErrMsg : PyErr → String
  | .valueError m => m
  | .typeError m => m

/-- `ValidationEngine._validate_regex`. -/
def validate_regex (valueOpt : Option Value) (pattern : String)
    (rule : ValidationRule) : Bool × String :=
  match valueOpt with
  | Option.none =>
    (false, "Field " ++ rule.fieldName ++ " is missing but required for regex validation")
  | some v =>
    let strValue := pyStr v
    match parseRegex pattern with
    | Option.none => (false, "Invalid regex pattern in rule " ++ rule.name)
    | some re =>
      if reMatch re strValue then (true, "")
      else (false, "Field " ++ rule.fieldName ++ " value " ++ strValue ++
        " does not match required pattern: " ++ pattern)

/-- `ValidationEngine._is_valid_float`: `float()` succeeds
(`ValueError`/`TypeError` mean no). -/
def is_valid_float (v : Value) : Bool :=
  match pyFloat v with
  | .ok _ => true
  | .error _ => false

/-- Strip the currency-symbol class `[$€£¥₹,\s]` from a string
(`re.sub` with a fixed class, embedded as a direct filter). -/
def cleanCurrency (s : String) : String :=
  String.mk (s.toList.filter (fun c =>
    ¬ (c = '$' ∨ c = '€' ∨ c = '£' ∨ c = '¥' ∨ c = '₹' ∨ c = ',' ∨ c.isWhitespace)))

/-- `ValidationEngine._is_valid_currency`. -/
def is_valid_currency (v : Value) : Bool :=
  match v with
  | .num _ _ => true
  | .bool _ => true
  | .str s => is_valid_float (Value.str (cleanCurrency s))
  | _ => false

/-- `ValidationEngine._is_valid_date`: the four fixed date layouts, on
the stripped string. -/
def is_valid_date (v : Value) : Bool :=
  match v with
  | .str s =>
    let t := pyStripStr s
    ["\\d{4}-\\d{2}-\\d{2}", "\\d{2}/\\d{2}/\\d{4}",
     "\\d{2}-\\d{2}-\\d{4}", "\\d{1,2}/\\d{1,2}/\\d{4}"].any (fun p =>
      match parseRegex p with
      | some re => reMatch re t
      | Option.none => false)
  | _ => false

/-- `ValidationEngine._is_valid_email`. -/
def is_valid_email (v : Value) : Bool :=
  match v with
  | .str s =>
    match parseRegex "^[a-zA-Z0-9._%+-]+@[a-zA-Z0-9.-]+\\.[a-zA-Z]{2,}$" with
    | some re => reMatch re (pyStripStr s)
    | Option.none => false
  | _ => false

/-- `ValidationEngine._is_valid_phone`: strip phone punctuation, then
all-digits of length 7–15. -/
def is_valid_phone (v : Value) : Bool :=
  match v with
  | .str s =>
    let cleaned := s.toList.filter (fun c =>
      ¬ (c.isWhitespace ∨ c = '-' ∨ c = '(' ∨ c = ')' ∨ c = '+' ∨ c = '.'))
    !cleaned.isEmpty && cleaned.all Char.isDigit &&
      decide (7 ≤ cleaned.length) && decide (cleaned.length ≤ 15)
  | _ => false

/-- One entry of the `type_validators` table in
`ValidationEngine._validate_data_type`.  Python `bool` is an `int`
subclass, so it passes the `isinstance(x, int)` tests. -/
def dataTypeCheck (expected : String) (v : Value) : Option Bool :=
  if expected = "string" then some (match v with | .str _ => true | _ => false)
  else if expected = "integer" then
    some (match v with
      | .num isInt _ => isInt
      | .bool _ => true
      | .str s => !s.isEmpty && s.toList.all Char.isDigit
      | _ => false)
  else if expected = "float" ∨ expected = "number" then
    some (match v with
      | .num _ _ => true
      | .bool _ => true
      | x => is_valid_float x)
  else if expected = "currency" then some (is_valid_currency v)
  else if expected = "date" then some (is_valid_date v)
  else if expected = "email" then some (is_valid_email v)
  else if expected = "phone" then some (is_valid_phone v)
  else if expected = "boolean" then
    some (match v with
      | .bool _ => true
      | x => ["true", "false", "1", "0"].contains (pyStr x).toLower)
  else Option.none

/-- `ValidationEngine._validate_data_type`. -/
def validate_data_type (valueOpt : Option Value) (expectedType : String)
    (rule : ValidationRule) : Bool × String :=
  match valueOpt with
  | Option.none =>
    (false, "Field " ++ rule.fieldName ++ " is missing but required for data type validation")
  | some v =>
    match dataTypeCheck expectedType.toLower v with
    | Option.none => (false, "Unknown data type " ++ expectedType ++ " in rule " ++ rule.name)
    | some ok =>
      if ok then (true, "")
      else (false, "Field " ++ rule.fieldName ++ " value " ++ pyStr v ++
        " is not of expected type: " ++ expectedType)

/-- `ValidationEngine._validate_required`. -/
def validate_required (valueOpt : Option Value) (rule : ValidationRule) :
    Bool × String :=
  let missing :=
    match valueOpt with
    | Option.none => true
    | some (Value.str s) => s = "" ∨ pyStripStr s = ""
    | some _ => false
  if missing then
    (false, "Required field " ++ rule.fieldName ++ " is missing or empty")
  else (true, "")

/-- `ValidationEngine._validate_range`: parse `"min,max"` / `"min-max"`
(an empty bound is ±infinity, modelled as an absent bound), coerce the
value with `float()` and compare.  Its `except ValueError` converts any
`ValueError` — from a bound or from the value — into the
`Invalid numeric value` failure; a `TypeError` propagates to the
caller. -/
def validate_range (valueOpt : Option Value) (rangeSpec : String)
    (rule : ValidationRule) : Except PyErr (Bool × String) :=
  match valueOpt with
  | Option.none =>
    .ok (false, "Field " ++ rule.fieldName ++ " is missing but required for range validation")
  | some value =>
    let attempt : Except PyErr (Bool × String) :=
      match (if strContainsSub rangeSpec "," then splitFirst rangeSpec ','
             else if strContainsSub rangeSpec "-" then splitFirst rangeSpec '-'
             else Option.none) with
      | Option.none =>
        .ok (false, "Invalid range format in rule " ++ rule.name ++ ". Use min,max or min-max")
      | some (minRaw, maxRaw) => do
        let parseBound : String → Except PyErr (Option ℚ) := fun raw =>
          let t := pyStripStr raw
          if t = "" then .ok Option.none
          else
            match parseFloatStr t with
            | some q => .ok (some q)
            | Option.none => .error (.valueError ("could not convert string to float: " ++ t))
        let minB ← parseBound minRaw
        let maxB ← parseBound maxRaw
        let numericValue ← pyFloat value
        if (match minB with
            | some m => decide (m ≤ numericValue)
            | Option.none => true) &&
           (match maxB with
            | some m => decide (numericValue ≤ m)
            | Option.none => true) then
          pure (true, "")
        else
          pure (false, "Field " ++ rule.fieldName ++ " value " ++ ratRepr numericValue ++
            " is outside valid range: " ++
            (match minB with | some m => ratRepr m | Option.none => "-inf") ++ " to " ++
            (match maxB with | some m => ratRepr m | Option.none => "inf"))
    match attempt with
    | .error (.valueError m) =>
      .ok (false, "Invalid numeric value for range validation in rule " ++
        rule.name ++ ": " ++ m)
    | other => other

/-- `ValidationEngine._validate_enum`: comma-separated allow-list, exact
string match after trimming. -/
def validate_enum (valueOpt : Option Value) (allowedValues : String)
    (rule : ValidationRule) : Bool × String :=
  match valueOpt with
  | Option.none =>
    (false, "Field " ++ rule.fieldName ++ " is missing but required for enumeration validation")
  | some v =>
    let allowedList := (allowedValues.splitOn ",").map pyStripStr
    let strValue := pyStripStr (pyStr v)
    if allowedList.contains strValue then (true, "")
    else (false, "Field " ++ rule.fieldName ++ " value " ++ strValue ++
      " is not in allowed values: " ++ String.intercalate ", " allowedList)

/-- `ValidationEngine._extract_numeric_value`: ints/floats/bools pass
through `float()`, strings are stripped of currency formatting first,
`{value, …}` pairs recurse, everything else raises `ValueError`.  The
fuel is the structural size of the value, which bounds the recursion
depth through nested confidence pairs. -/
def extract_numeric_value_fuel : ℕ → Value → Except PyErr ℚ
  | 0, _ => .error (.valueError "RecursionError")
  | fuel + 1, v =>
    match v with
    | .num _ q => .ok q
    | .bool b => .ok (if b then 1 else 0)
    | .str s =>
      let cleaned := cleanCurrency (pyStripStr s)
      match parseFloatStr cleaned with
      | some q => .ok q
      | Option.none => .error (.valueError ("Cannot convert " ++ s ++ " to numeric value"))
    | .dict es =>
      match lookupKey es "value" with
      | some inner => extract_numeric_value_fuel fuel inner
      | Option.none => .error (.valueError "Cannot extract numeric value from dict")
    | other => .error (.valueError ("Cannot extract numeric value from " ++ pyStr other))

mutual

/-- Structural nesting depth of a value, used as recursion fuel. -/
def valueDepth : Value → ℕ
  | .dict es => 1 + entriesDepth es
  | .list xs => 1 + itemsDepth xs
  | _ => 1

def entriesDepth : List (String × Value) → ℕ
  | [] => 0
  | kv :: rest => max (valueDepth kv.2) (entriesDepth rest)

def itemsDepth : List Value → ℕ
  | [] => 0
  | v :: rest => max (valueDepth v) (itemsDepth rest)

end

def extract_numeric_value (v : Value) : Except PyErr ℚ :=
  extract_numeric_value_fuel (valueDepth v + 1) v

/-- The canonical line-item keys probed by
`_calculate_reference_value`, in order. -/
def lineItemFields : List String :=
  ["amount", "total", "price", "value", "cost"]

/-- Numeric contribution of one reference-list item: a dict is probed on
the canonical keys (a coercion failure there propagates); a dict with no
canonical key falls back to its first coercible entry, silently skipping
failures; a bare item is coerced, silently skipped on failure. -/
def item_numeric (item : Value) : Except PyErr (Option ℚ) :=
  match item with
  | .dict es =>
    match lineItemFields.findSome? (fun f => lookupKey es f) with
    | some fieldVal =>
      match extract_numeric_value fieldVal with
      | .ok q => .ok (some q)
      | .error e => .error e
    | Option.none =>
      .ok (es.findSome? (fun kv =>
        match extract_numeric_value kv.2 with
        | .ok q => some q
        | .error _ => Option.none))
  | other =>
    match extract_numeric_value other with
    | .ok q => .ok (some q)
    | .error _ => .ok Option.none

/-- `ValidationEngine._calculate_reference_value`: a non-list reference
is coerced directly; a list is folded into its numeric values and
aggregated by `calc_type`, raising `ValueError` when no numeric value
was found or the calculation type is unknown. -/
def calculate_reference_value (referenceData : Value) (calcType : String)
    (rule : ValidationRule) : Except PyErr ℚ :=
  match referenceData with
  | .list items => do
    let numericValues ← items.foldlM (fun acc it => do
      match ← item_numeric it with
      | some q => pure (acc ++ [q])
      | Option.none => pure acc) ([] : List ℚ)
    match numericValues with
    | [] => .error (.valueError ("No numeric values found in reference field " ++
        strOfOpt rule.referenceField))
    | q0 :: qs =>
      if calcType = "sum" then pure (q0 :: qs).sum
      else if calcType = "average" then pure ((q0 :: qs).sum / (q0 :: qs).length)
      else if calcType = "count" then pure ((q0 :: qs).length : ℚ)
      else if calcType = "min" then pure (qs.foldl min q0)
      else if calcType = "max" then pure (qs.foldl max q0)
      else .error (.valueError ("Unknown calculation type: " ++ calcType))
  | other => extract_numeric_value other

/-- `ValidationEngine._validate_cross_reference`: resolve the reference
field from the full extracted data, aggregate it, and compare the main
value within tolerance (`0.01` when the `tolerance` column is unset or
zero).  Every exception inside the comparison is caught and reported as
a cross-reference error. -/
def validate_cross_reference (valueOpt : Option Value) (rule : ValidationRule)
    (data : ExtractedData) : Bool × String :=
  match valueOpt with
  | Option.none =>
    (false, "Field " ++ rule.fieldName ++ " is missing but required for cross-reference validation")
  | some value =>
    if ¬ strTruthy rule.referenceField then
      (false, "Cross-reference validation requires a reference_field in rule " ++ rule.name)
    else
      match vGetFieldValue data (rule.referenceField.getD "") with
      | Option.none =>
        (false, "Reference field " ++ strOfOpt rule.referenceField ++
          " is missing for cross-reference validation")
      | some referenceValue =>
        let calcType :=
          if strTruthy rule.calculationType then rule.calculationType.getD "" else "sum"
        let attempt : Except PyErr (Bool × String) := do
          let calculatedValue ← calculate_reference_value referenceValue calcType rule
          let mainValue ← extract_numeric_value value
          let tolerance := if numTruthy rule.tolerance then rule.tolerance.getD 0 else 1 / 100
          let difference := |mainValue - calculatedValue|
          if difference ≤ tolerance then pure (true, "")
          else
            pure (false, "Field " ++ rule.fieldName ++ " value " ++ ratRepr mainValue ++
              " does not match calculated " ++ calcType ++ " " ++ ratRepr calculatedValue ++
              " from " ++ strOfOpt rule.referenceField ++ " (difference: " ++
              ratRepr difference ++ ", tolerance: " ++ ratRepr tolerance ++ ")")
        match attempt with
        | .ok r => r
        | .error e =>
          (false, "Error in cross-reference validation for rule " ++ rule.name ++
            ": " ++ pyErrMsg e)

/-- `ValidationEngine._validate_calculation`: its own two guard clauses
(worded for `calculation`), then delegation to
`_validate_cross_reference`. -/
def validate_calculation (valueOpt : Option Value) (rule : ValidationRule)
    (data : ExtractedData) : Bool × String :=
  match valueOpt with
  | Option.none =>
    (false, "Field " ++ rule.fieldName ++ " is missing but required for calculation validation")
  | some v =>
    if ¬ strTruthy rule.referenceField then
      (false, "Calculation validation requires a reference_field in rule " ++ rule.name)
    else validate_cross_reference (some v) rule data

/-- Per-rule result dict of `ValidationEngine._apply_validation_rule`. -/
structure FieldResult where
  ruleName : String
  fieldName : String
  ruleType : String
  passed : Bool
  errors : List String
  value : Option Value

/-- The keys of the `rule_validators` dispatch table. -/
def knownRuleTypes : List String :=
  ["regex", "data_type", "required", "range", "enum", "cross_reference", "calculation"]

/-- `ValidationEngine._apply_validation_rule`: extract the field value,
dispatch on `rule_type` (unknown types are reported, not raised), record
the pass flag and error message, and catch any exception escaping a
validator as a `Validation error for rule` entry. -/
def apply_validation_rule (data : ExtractedData) (rule : ValidationRule) : FieldResult :=
  let fieldValue := vGetFieldValue data rule.fieldName
  let base : FieldResult := {
    ruleName := rule.name
    fieldName := rule.fieldName
    ruleType := rule.ruleType
    passed := false
    errors := []
    value := fieldValue }
  if ¬ knownRuleTypes.contains rule.ruleType then
    { base with errors := ["Unknown rule type: " ++ rule.ruleType] }
  else
    let outcome : Except PyErr (Bool × String) :=
      if rule.ruleType = "regex" then .ok (validate_regex fieldValue rule.rulePattern rule)
      else if rule.ruleType = "data_type" then
        .ok (validate_data_type fieldValue rule.rulePattern rule)
      else if rule.ruleType = "required" then .ok (validate_required fieldValue rule)
      else if rule.ruleType = "range" then validate_range fieldValue rule.rulePattern rule
      else if rule.ruleType = "enum" then .ok (validate_enum fieldValue rule.rulePattern rule)
      else if rule.ruleType = "cross_reference" then
        .ok (validate_cross_reference fieldValue rule data)
      else .ok (validate_calculation fieldValue rule data)
    match outcome with
    | .ok (isValid, errorMessage) =>
      { base with
        passed := isValid
        errors := if ¬ isValid ∧ errorMessage ≠ "" then [errorMessage] else [] }
    | .error e =>
      { base with errors :=
        ["Validation error for rule " ++ rule.name ++ ": " ++ pyErrMsg e] }

/-- The results dict built by `ValidationEngine.validate_document_data`. -/
structure ValidationReport where
  status : String
  totalRules : ℕ
  passedRules : ℕ
  failedRules : ℕ
  errors : List String
  warnings : List String
  validatedData : ExtractedData
  fieldValidations : List (String × FieldResult)

/-- Dict write `results['field_validations'][field_name] = r`. -/
def upsertFieldValidation (l : List (String × FieldResult)) (k : String)
    (fr : FieldResult) : List (String × FieldResult) :=
  if l.any (fun p => p.1 == k) then l.map (fun p => if p.1 == k then (k, fr) else p)
  else l ++ [(k, fr)]

/-- The `get_validation_rules` read: active rules of the document type,
ordered by `field_name` (stable). -/
def getValidationRules (rules : List ValidationRule) (documentType : String) :
    List ValidationRule :=
  (rules.filter (fun r => r.documentType == documentType && r.isActive)).mergeSort
    (fun a b => a.fieldName ≤ b.fieldName)

/-- `ValidationEngine.validate_document_data`: one read of the rule
catalog, then a pure fold threading the results dict exactly as the
loop mutates it; `validated_data` starts as a copy of the input and is
never touched again. -/
def validate_document_data (rules : List ValidationRule)
    (extractedData : ExtractedData) (documentType : String) : ValidationReport :=
  let validationRules := getValidationRules rules documentType
  let init : ValidationReport := {
    status := "passed"
    totalRules := validationRules.length
    passedRules := 0
    failedRules := 0
    errors := []
    warnings := []
    validatedData := extractedData
    fieldValidations := [] }
  if validationRules.isEmpty then
    { init with
      status := "no_rules"
      warnings := init.warnings ++
        ["No validation rules found for document type: " ++ documentType] }
  else
    let looped := validationRules.foldl (fun acc rule =>
      let fieldResult := apply_validation_rule extractedData rule
      let acc1 := { acc with fieldValidations :=
        upsertFieldValidation acc.fieldValidations rule.fieldName fieldResult }
      if fieldResult.passed then { acc1 with passedRules := acc1.passedRules + 1 }
      else { acc1 with
        failedRules := acc1.failedRules + 1
        errors := acc1.errors ++ fieldResult.errors }) init
    if 0 < looped.failedRules then { looped with status := "failed" }
    else if 0 < looped.passedRules then { looped with status := "passed" }
    else looped

/-- The validation engine as called against the store: its only store
interaction is the initial read of the rule catalog — the source
performs no save of rules, documents or results — so the embedding
returns the store exactly as received, paired with the report. -/
def validate_document_data_service (st : SystemState) (extractedData : ExtractedData)
    (documentType : String) : SystemState × ValidationReport :=
  (st, validate_document_data st.rules extractedData documentType)

/-- Dict-key order of `collections.Counter`: distinct elements in order
of first occurrence. -/
def distinctKeys (l : List String) : List String :=
  l.foldl (fun acc s => if acc.contains s then acc else acc ++ [s]) []

/-- The dict returned by
`PatternAnalysisService._analyze_enum_patterns` when the field is an
enumeration candidate. -/
structure EnumPattern where
  values : List String
  confidence : ℚ
  uniqueCount : ℕ
  totalValues : ℕ
  valueDistribution : List (String × ℕ)
deriving DecidableEq

/-- `PatternAnalysisService._analyze_enum_patterns`: count the distinct
`str()` forms; suggest an enumeration only when there are at most 10 of
them, they make up less than 30% of the sample, and each occurs at
least twice; confidence is `1 − unique/total`.  The source compares
`unique_count < total_values * 0.3` in binary64; over the reachable
range (`unique_count ≤ 10` is already known to hold) that float test
agrees exactly with the rational test `10 * unique < 3 * total` embedded
here. -/
def analyze_enum_patterns (values : List Value) : Option EnumPattern :=
  let strs := values.map pyStr
  let uniqueValues := distinctKeys strs
  let totalValues := values.length
  let uniqueCount := uniqueValues.length
  if uniqueCount ≤ 10 ∧ 10 * uniqueCount < 3 * totalValues then
    match uniqueValues with
    | [] => Option.none
    | u0 :: us =>
      let minOccurrences := (us.map (fun u => strs.count u)).foldl min (strs.count u0)
      if 2 ≤ minOccurrences then
        some {
          values := uniqueValues
          confidence := 1 - (uniqueCount : ℚ) / (totalValues : ℚ)
          uniqueCount := uniqueCount
          totalValues := totalValues
          valueDistribution := uniqueValues.map (fun u => (u, strs.count u)) }
      else Option.none
  else Option.none

/-- `_analyze_field_patterns` cleaning step: drop `None` and empty
strings before any analyzer runs. -/
def cleanFieldValues (l : List Value) : List Value :=
  l.filter (fun v =>
    match v with
    | .none => false
    | .str s => s ≠ ""
    | _ => true)

/-- The `rule_data` dict produced by
`PatternAnalysisService._create_rule_suggestion` and consumed by
`auto_create_validation_rules`. -/
structure RuleSuggestion where
  name : String
  documentType : String
  fieldName : String
  ruleType : String
  rulePattern : String
  description : String
  confidence : ℚ
  referenceField : Option String := Option.none
  calculationType : Option String := Option.none
  tolerance : Option ℚ := Option.none
deriving DecidableEq

/-- The `ValidationRule.objects.create(...)` row built from a
suggestion: flagged `auto_created`, active. -/
def suggestionToRule (s : RuleSuggestion) : ValidationRule :=
  { name := s.name
    documentType := s.documentType
    fieldName := s.fieldName
    ruleType := s.ruleType
    rulePattern := s.rulePattern
    description := s.description
    referenceField := s.referenceField
    calculationType := s.calculationType
    tolerance := s.tolerance
    autoCreated := true
    isActive := true }

/-- Does the catalog already hold a rule with this
`(document_type, field_name, rule_type)` triple?  (The existence filter
of `create_rule`.) -/
def tripleExists (store : List ValidationRule) (dt fn rt : String) : Bool :=
  store.any (fun r => r.documentType == dt && r.fieldName == fn && r.ruleType == rt)

/-- The `(document_type, field_name, rule_type)` key triples of a rule
catalog, in order. -/
def ruleTriples (store : List ValidationRule) : List (String × String × String) :=
  store.map (fun r => (r.documentType, r.fieldName, r.ruleType))

/-- The `create_rule` closure inside `auto_create_validation_rules`:
check-then-create — return `none` and leave the catalog alone when an
identical triple exists, otherwise insert the new auto-created rule. -/
def create_rule (store : List ValidationRule) (rd : RuleSuggestion) :
    List ValidationRule × Option ValidationRule :=
  if tripleExists store rd.documentType rd.fieldName rd.ruleType then (store, Option.none)
  else
    let newRule := suggestionToRule rd
    (store ++ [newRule], some newRule)

/-- The creation loop of `auto_create_validation_rules`: run
`create_rule` on each suggestion in order, accumulating the catalog and
the list of rules actually inserted. -/
def create_rules_loop : List RuleSuggestion →
    List ValidationRule × List ValidationRule →
    List ValidationRule × List ValidationRule
  | [], acc => acc
  | rd :: rds, acc =>
    match create_rule acc.1 rd with
    | (store1, some created) => create_rules_loop rds (store1, acc.2 ++ [created])
    | (store1, Option.none) => create_rules_loop rds (store1, acc.2)

/-- `PatternAnalysisService.auto_create_validation_rules`, taking the
suggestion list produced by `analyze_document_patterns` as input: that
analysis is a read-only, deterministic function of the processed
documents (purely statistical, as the spec notes), so two calls over an
unchanged document store consume the same suggestion list.  Keep the
suggestions meeting the confidence threshold and run `create_rule` on
each in order, collecting the rules actually inserted. -/
def auto_create_validation_rules (store : List ValidationRule)
    (suggestions : List RuleSuggestion) (confidenceThreshold : ℚ) :
    List ValidationRule × List ValidationRule :=
  let highConfidence := suggestions.filter (fun s => confidenceThreshold ≤ s.confidence)
  create_rules_loop highConfidence (store, [])

/-! ## Concrete fixtures

Small closed states used by the counterexamples, witnesses and
evaluations below.  `stC` holds one two-step workflow (an approval step
then a processing step), one document mid-approval, one `in_progress`
execution parked on the approval step, and two pending approvals on
that step assigned to different approvers. -/

/-- Approval step of the fixture workflow (order 1, approver alice). -/
def step1C : WorkflowStep := {
  id := 101
  name := "approve"
  description := ""
  stepOrder := 1
  stepType := "approval"
  approver := some "alice"
  approvalGroup := Option.none
  requiresAllApprovers := false
  integrationSystem := Option.none
  conditionField := Option.none
  conditionValue := Option.none
  conditionOperator := Option.none }

/-- Processing step of the fixture workflow (order 2). -/
def step2C : WorkflowStep := { step1C with
  id := 102
  name := "process"
  stepOrder := 2
  stepType := "processing"
  approver := Option.none }

/-- Fixture workflow: approval then processing. -/
def wfC : Workflow := {
  id := 1
  name := "wf"
  requiresApproval := false
  approvalThreshold := Option.none
  autoApproveBelowThreshold := false
  steps := [step1C, step2C] }

/-- Fixture document, mid-approval. -/
def docC : Document := {
  id := 10
  filename := "f.pdf"
  documentType := "invoice"
  extractedData := []
  workflowStatus := some "pending"
  currentApprover := some "alice" }

/-- Fixture execution, parked on the approval step. -/
def execC : WorkflowExecution := {
  id := 20
  documentId := 10
  workflowId := 1
  status := "in_progress"
  currentStep := some 101
  executionData := {}
  errorLog := Option.none
  completedAt := Option.none
  startedBy := Option.none }

/-- Pending approval assigned to alice, naming carol as delegate. -/
def apr1 : DocumentApproval := {
  id := 30
  documentId := 10
  workflowStepId := 101
  approver := "alice"
  approvalLevel := 1
  status := "pending"
  comments := Option.none
  reviewedAt := Option.none
  dueDate := some 99
  delegatedTo := some "carol" }

/-- A second pending approval on the same step, assigned to bob. -/
def apr2 : DocumentApproval := { apr1 with
  id := 31
  approver := "bob"
  delegatedTo := Option.none }

/-- The fixture store. -/
def stC : SystemState := {
  documents := [docC]
  workflows := [wfC]
  executions := [execC]
  approvals := [apr1, apr2]
  integrations := []
  groups := []
  rules := []
  nextId := 40 }

/-- Document whose extracted total is the float `0.0` — an amount the
Python truthiness test `if amount and …` treats as absent. -/
def docZero : Document := {
  id := 11
  filename := "z.pdf"
  documentType := "invoice"
  extractedData := [("total", Value.num false 0)]
  workflowStatus := Option.none
  currentApprover := Option.none }

/-- Approval-gated workflow with a 1000 threshold and auto-approval on,
and no steps (so the normal path is immediately visible as the
`No steps defined` failure). -/
def wfAuto : Workflow := {
  id := 2
  name := "wfauto"
  requiresApproval := true
  approvalThreshold := some 1000
  autoApproveBelowThreshold := true
  steps := [] }

/-- Store for the auto-approval scenarios. -/
def stAuto : SystemState := {
  documents := [docZero]
  workflows := [wfAuto]
  executions := []
  approvals := []
  integrations := []
  groups := []
  rules := []
  nextId := 50 }

/-- Document whose monetary fields are plain strings. -/
def docStrTotal : Document := { docZero with
  id := 12
  extractedData := [("total", Value.str "500.00"), ("amount", Value.str "42")] }

/-- Document with a `{value, confidence}` total of 500. -/
def docBelow : Document := { docZero with
  id := 13
  extractedData :=
    [("total", Value.dict [("value", Value.str "500.00"), ("confidence", Value.num false (98/100))])] }

/-- A `calculation` rule with a reference field, for the alias claims. -/
def ruleCalcC : ValidationRule := {
  name := "total_matches_items"
  documentType := "invoice"
  fieldName := "total_amount"
  ruleType := "calculation"
  rulePattern := ""
  description := ""
  referenceField := some "items"
  calculationType := some "sum"
  tolerance := Option.none
  autoCreated := false
  isActive := true }

/-- A `range` rule with pattern `10,20`. -/
def ruleRangeC : ValidationRule := { ruleCalcC with
  name := "amount_range_check"
  fieldName := "amount"
  ruleType := "range"
  rulePattern := "10,20"
  referenceField := Option.none
  calculationType := Option.none }

example : pyFloat (Value.str "500.00") = .ok 500 := by with_unfolding_all decide
example : pyFloat (Value.str "abc") =
    .error (.valueError "could not convert string to float: abc") := by rfl
example : parseFloatStr "10" = some 10 := by with_unfolding_all decide
example : parseFloatStr "-2.5" = some (-5/2) := by with_unfolding_all decide
example : parseFloatStr "" = Option.none := by rfl
example : parseFloatStr "." = Option.none := by rfl

/-! ## Claim theorems -/

/-- C4: whenever the responder of `handle_approval_response` is not the
approval's assigned approver, the call returns the
`Unauthorized approver` error dict and leaves the store — approval,
execution and document rows included — exactly as it was. -/
theorem c4_unauthorized_response_no_mutation
    (st : SystemState) (approvalId : ℕ) (approver action : String)
    (comments : Option String) (now : ℕ) (ap : DocumentApproval)
    (hFind : findApproval st approvalId = some ap)
    (hNe : ap.approver ≠ approver) :
    handle_approval_response st approvalId approver action comments now =
      (st, .error "Unauthorized approver") := by
  unfold handle_approval_response
  rw [hFind]
  simp [hNe]

/-- Witness for C4: mallory answers alice's approval in the fixture
store; nothing changes and the error dict comes back. -/
theorem c4_unauthorized_response_no_mutation_witness :
    findApproval stC 30 = some apr1 ∧ apr1.approver ≠ "mallory" ∧
    handle_approval_response stC 30 "mallory" "approved" Option.none 7 =
      (stC, .error "Unauthorized approver") :=
  ⟨rfl, by decide,
    c4_unauthorized_response_no_mutation stC 30 "mallory" "approved"
      Option.none 7 apr1 rfl (by decide)⟩

/-- C3 (code bug): a `delegated` response from the assigned approver
marks the original approval `delegated` and reports success, but
creates no `DocumentApproval` for the named delegate (carol): the
approvals table keeps its two rows, carol is assigned nothing, and the
rest of the store is untouched.  `_handle_approval_delegated` is a
stub. -/
theorem c3_delegation_creates_no_approval :
    (handle_approval_response stC 30 "alice" "delegated" Option.none 1000).2 =
      .delegatedRes "Approval delegated successfully" ∧
    (handle_approval_response stC 30 "alice" "delegated" Option.none 1000).1.approvals.length =
      stC.approvals.length ∧
    ((findApproval (handle_approval_response stC 30 "alice" "delegated" Option.none 1000).1 30).map
      (fun a => a.status)) = some "delegated" ∧
    ((handle_approval_response stC 30 "alice" "delegated" Option.none 1000).1.approvals.filter
      (fun a => a.approver == "carol")) = [] ∧
    (handle_approval_response stC 30 "alice" "delegated" Option.none 1000).1.executions =
      stC.executions := by
  decide

/-- Counterexample for C1: in the fixture store alice rejects her
pending approval — the execution goes to `failed` and the document to
`rejected` — yet bob's later `approved` response on the second pending
approval of the same execution still advances it: the engine runs the
remaining processing step, completes the execution and flips the
document to `approved`.  The claimed terminality ("no further workflow
step is ever executed") does not hold. -/
theorem c1_rejection_not_terminal_counterexample :
    ((handle_approval_response stC 30 "alice" "rejected" Option.none 1000).2 =
      .rejectedRes "Workflow rejected by alice") ∧
    ((findExecution (handle_approval_response stC 30 "alice" "rejected" Option.none 1000).1 20).map
      (fun e => e.status)) = some "failed" ∧
    ((findDocument (handle_approval_response stC 30 "alice" "rejected" Option.none 1000).1 10).map
      (fun d => d.workflowStatus)) = some (some "rejected") ∧
    ((handle_approval_response
        (handle_approval_response stC 30 "alice" "rejected" Option.none 1000).1
        31 "bob" "approved" Option.none 2000).2 =
      .completedRes "Workflow completed successfully") ∧
    ((findExecution (handle_approval_response
        (handle_approval_response stC 30 "alice" "rejected" Option.none 1000).1
        31 "bob" "approved" Option.none 2000).1 20).map (fun e => e.status)) =
      some "completed" ∧
    ((findDocument (handle_approval_response
        (handle_approval_response stC 30 "alice" "rejected" Option.none 1000).1
        31 "bob" "approved" Option.none 2000).1 10).map (fun d => d.workflowStatus)) =
      some (some "approved") := by
  decide

/-- Counterexample for C2: `docZero`'s extracted total is the float
`0.0` — an amount that is extracted, is strictly below the 1000
threshold, and `auto_approve_below_threshold` is set — yet
`start_document_workflow` does not auto-approve: `if amount and …`
treats `0.0` as falsy, so the engine takes the normal path (here the
`No steps defined` failure), creates no auto-approved completed
execution and leaves the document's workflow status unset.  Likewise, a
zero `approval_threshold` with a negative extracted amount satisfies
the claim's premises but is skipped by the
`if workflow.approval_threshold:` truthiness test. -/
theorem c2_zero_amount_counterexample :
    wfAuto.requiresApproval = true ∧
    wfAuto.approvalThreshold = some 1000 ∧
    wfAuto.autoApproveBelowThreshold = true ∧
    extract_document_amount docZero = some 0 ∧
    (0 : ℚ) < 1000 ∧
    (start_document_workflow stAuto docZero wfAuto Option.none 5).2 =
      .startFailed "No steps defined in this workflow" 2 "wfauto" ∧
    ((start_document_workflow stAuto docZero wfAuto Option.none 5).1.executions.all
      (fun e => !e.executionData.autoApproved)) = true ∧
    ((findDocument (start_document_workflow stAuto docZero wfAuto Option.none 5).1 11).map
      (fun d => d.workflowStatus)) = some Option.none ∧
    extract_document_amount
      { docZero with extractedData := [("total", Value.num false (-5))] } = some (-5) ∧
    (-5 : ℚ) < 0 ∧
    (start_document_workflow stAuto
      { docZero with extractedData := [("total", Value.num false (-5))] }
      { wfAuto with approvalThreshold := some 0 } Option.none 5).2 =
      .startFailed "No steps defined in this workflow" 2 "wfauto" := by
  decide

/-- Helper for C10: probing a field list in which every present field is
a plain string never yields an amount — a bare string is neither a
`{value, …}` dict nor an `isinstance(…, (int, float))` scalar, so the
loop falls through every candidate. -/
theorem findAmount_eq_none (fs : List String) (data : ExtractedData)
    (h : fs.all (fun f =>
      match lookupKey data f with
      | Option.none => true
      | some (Value.str _) => true
      | some _ => false) = true) :
    findAmount fs data = Option.none := by
  induction fs with
  | nil => rfl
  | cons f fs ih =>
    rw [List.all_cons, Bool.and_eq_true] at h
    obtain ⟨h1, h2⟩ := h
    unfold findAmount
    cases hl : lookupKey data f with
    | none => exact ih h2
    | some v =>
      rw [hl] at h1
      cases v with
      | str s => simpa [extractFieldAmount] using ih h2
      | num i q => simp at h1
      | bool b => simp at h1
      | none => simp at h1
      | dict es => simp at h1
      | list xs => simp at h1

/-- C10: when every monetary field of the document is absent or a plain
string (for example `"500.00"`), `_extract_document_amount` returns
`None`, and `start_document_workflow` is exactly the normal path — it
never auto-approves, whatever the workflow's threshold and
auto-approval flag say. -/
theorem c10_string_amounts_take_normal_path (doc : Document)
    (h : monetary_fields_string_or_absent doc.extractedData = true) :
    extract_document_amount doc = Option.none ∧
    ∀ st wf startedBy now,
      start_document_workflow st doc wf startedBy now =
        start_workflow_normal st doc wf startedBy now := by
  have hNone : extract_document_amount doc = Option.none := by
    unfold extract_document_amount
    split
    · rfl
    · exact findAmount_eq_none _ _ h
  refine ⟨hNone, fun st wf startedBy now => ?_⟩
  have hCheck : check_approval_required doc wf = wf.requiresApproval := by
    unfold check_approval_required
    rw [hNone]
    by_cases hr : wf.requiresApproval
    · simp [hr]
    · simp [hr]
  unfold start_document_workflow
  rw [hCheck]
  simp

/-- Witness for C10: the all-strings document takes the normal path in
the auto-approval-configured workflow. -/
theorem c10_string_amounts_take_normal_path_witness :
    monetary_fields_string_or_absent docStrTotal.extractedData = true ∧
    extract_document_amount docStrTotal = Option.none ∧
    start_document_workflow stAuto docStrTotal wfAuto Option.none 3 =
      start_workflow_normal stAuto docStrTotal wfAuto Option.none 3 :=
  ⟨rfl, (c10_string_amounts_take_normal_path docStrTotal rfl).1,
    (c10_string_amounts_take_normal_path docStrTotal rfl).2 stAuto wfAuto Option.none 3⟩

/-- Counterexample for C5: on a missing field value the two validators
agree on the failed flag but report differently worded errors (each
guard names its own rule type), so their outcome — passed flag *and*
reported errors — is not identical. -/
theorem c5_missing_value_messages_differ_counterexample :
    (validate_calculation Option.none ruleCalcC []).1 =
      (validate_cross_reference Option.none ruleCalcC []).1 ∧
    validate_calculation Option.none ruleCalcC [] ≠
      validate_cross_reference Option.none ruleCalcC [] := by
  decide

/-- C5 as amended: for every *present* field value, extracted-data map
and rule with a (truthy) `reference_field`, the `calculation` validator
delegates to — and is exactly equal to — the `cross_reference`
validator; on a missing value both still fail, only the guard wording
differs. -/
theorem c5_calculation_alias_on_present_values (v : Value)
    (rule : ValidationRule) (data : ExtractedData)
    (h : strTruthy rule.referenceField = true) :
    validate_calculation (some v) rule data =
      validate_cross_reference (some v) rule data ∧
    (validate_calculation Option.none rule data).1 = false ∧
    (validate_cross_reference Option.none rule data).1 = false := by
  refine ⟨?_, rfl, rfl⟩
  unfold validate_calculation
  simp [h]

/-- Witness for C5: the alias equality at a concrete rule and value. -/
theorem c5_calculation_alias_on_present_values_witness :
    strTruthy ruleCalcC.referenceField = true ∧
    validate_calculation (some (Value.num false 150)) ruleCalcC [] =
      validate_cross_reference (some (Value.num false 150)) ruleCalcC [] :=
  ⟨by decide,
    (c5_calculation_alias_on_present_values (Value.num false 150) ruleCalcC []
      (by decide)).1⟩

/-- C2 as amended: when the workflow requires approval, has a nonzero
threshold, auto-approval below threshold is on, and the extracted
amount is *nonzero* and below the threshold, `start_document_workflow`
is exactly `_auto_approve_document`: it appends one execution already
in status `completed` with `execution_data.auto_approved = true`, marks
the document `approved`, returns the auto-approval dict, and every
execution of the resulting store is either pre-existing or that
completed auto-approved row — no `in_progress` execution is ever
created on this path.  (The nonzero conditions are forced by the
`if workflow.approval_threshold:` and `if amount and …` truthiness
tests, see the counterexample.) -/
theorem c2_auto_approval_below_threshold
    (st : SystemState) (doc : Document) (wf : Workflow)
    (startedBy : Option String) (now : ℕ) (t a : ℚ)
    (hReq : wf.requiresApproval = true)
    (hThr : wf.approvalThreshold = some t) (hT : t ≠ 0)
    (hAmt : extract_document_amount doc = some a) (hA : a ≠ 0)
    (hLt : a < t) (hAuto : wf.autoApproveBelowThreshold = true) :
    start_document_workflow st doc wf startedBy now =
      auto_approve_document st doc wf now ∧
    auto_approve_document st doc wf now =
      (updateDocument
        { st with
            executions := st.executions ++ [{
              id := st.nextId
              documentId := doc.id
              workflowId := wf.id
              status := "completed"
              currentStep := Option.none
              executionData := {
                autoApproved := true
                autoApprovalReason := some "Below threshold amount"
                completedAt := some now }
              errorLog := Option.none
              completedAt := Option.none
              startedBy := Option.none }]
            nextId := st.nextId + 1 }
        { doc with workflowStatus := some "approved" },
       .autoApproved st.nextId doc.id wf.id
         "Document auto-approved based on workflow criteria") ∧
    (∀ e ∈ (start_document_workflow st doc wf startedBy now).1.executions,
      e ∈ st.executions ∨
        (e.status = "completed" ∧ e.executionData.autoApproved = true)) := by
  have hCheck : check_approval_required doc wf = false := by
    unfold check_approval_required
    rw [hReq, hThr, hAmt]
    simp [numTruthy, hT, hA, hLt, hAuto]
  have hMain : start_document_workflow st doc wf startedBy now =
      auto_approve_document st doc wf now := by
    unfold start_document_workflow
    simp [hCheck, hReq]
  have hShape : auto_approve_document st doc wf now =
      (updateDocument
        { st with
            executions := st.executions ++ [{
              id := st.nextId
              documentId := doc.id
              workflowId := wf.id
              status := "completed"
              currentStep := Option.none
              executionData := {
                autoApproved := true
                autoApprovalReason := some "Below threshold amount"
                completedAt := some now }
              errorLog := Option.none
              completedAt := Option.none
              startedBy := Option.none }]
            nextId := st.nextId + 1 }
        { doc with workflowStatus := some "approved" },
       .autoApproved st.nextId doc.id wf.id
         "Document auto-approved based on workflow criteria") := rfl
  refine ⟨hMain, hShape, fun e he => ?_⟩
  rw [hMain, hShape] at he
  simp only [updateDocument, List.mem_append, List.mem_singleton] at he
  rcases he with hOld | hNew
  · exact Or.inl hOld
  · exact Or.inr (by rw [hNew]; exact ⟨rfl, rfl⟩)

/-- Witness for C2: the `{value: "500.00"}` document auto-approves in
the threshold-1000 workflow. -/
theorem c2_auto_approval_below_threshold_witness :
    extract_document_amount docBelow = some 500 ∧
    start_document_workflow stAuto docBelow wfAuto Option.none 9 =
      auto_approve_document stAuto docBelow wfAuto 9 :=
  ⟨by with_unfolding_all decide,
    (c2_auto_approval_below_threshold stAuto docBelow wfAuto Option.none 9 1000 500
      rfl rfl (by norm_num) (by with_unfolding_all decide) (by norm_num)
      (by norm_num) rfl).1⟩

/-- Saving an approval row does not touch the documents table. -/
theorem findDocument_updateApproval (st : SystemState) (a : DocumentApproval) (i : ℕ) :
    findDocument (updateApproval st a) i = findDocument st i := rfl

/-- Saving an approval row does not touch the executions table. -/
theorem firstExecutionFor_updateApproval (st : SystemState) (a : DocumentApproval) (d : ℕ) :
    firstExecutionFor (updateApproval st a) d = firstExecutionFor st d := rfl

/-- Saving an execution row does not touch the documents table. -/
theorem findDocument_updateExecution (st : SystemState) (e : WorkflowExecution) (i : ℕ) :
    findDocument (updateExecution st e) i = findDocument st i := rfl

/-- C1 as amended: a `rejected` response from the assigned approver of a
pending approval immediately saves the approval as `rejected`, fails
the owning execution with the rejecting approver and comments in
`error_log`, marks the document `rejected` and clears its current
approver — but the rejection is *not* terminal: nothing records it
against later responses, and a subsequent `approved` response on
another approval of the same execution still advances it (see the
counterexample). -/
theorem c1_rejected_approval_fails_execution
    (st : SystemState) (approvalId : ℕ) (approver : String)
    (comments : Option String) (now : ℕ) (ap : DocumentApproval)
    (doc : Document) (exec : WorkflowExecution)
    (hFind : findApproval st approvalId = some ap)
    (hApp : ap.approver = approver)
    (hDoc : findDocument st ap.documentId = some doc)
    (hExec : firstExecutionFor st ap.documentId = some exec) :
    handle_approval_response st approvalId approver "rejected" comments now =
      (updateDocument
        (updateExecution
          (updateApproval st { ap with
            status := "rejected"
            comments := some (comments.getD "")
            reviewedAt := some now })
          { exec with
            status := "failed"
            errorLog := some ("Rejected by " ++ ap.approver ++ ": " ++ comments.getD "")
            completedAt := some now })
        { doc with workflowStatus := some "rejected", currentApprover := Option.none },
       .rejectedRes ("Workflow rejected by " ++ ap.approver)) := by
  subst hApp
  have hDocId : doc.id = ap.documentId := by
    have h := List.find?_some hDoc
    simpa using h
  have hExecDoc : exec.documentId = ap.documentId := by
    have h := List.find?_some hExec
    simpa using h
  simp [handle_approval_response, handle_approval_rejected, hFind, hDoc, hExec,
    hDocId, hExecDoc, strOfOpt, findDocument_updateApproval,
    firstExecutionFor_updateApproval, findDocument_updateExecution]

/-- Witness for C1: alice rejects in the fixture store; approval,
execution and document rows all take the rejected shape. -/
theorem c1_rejected_approval_fails_execution_witness :
    findApproval stC 30 = some apr1 ∧ apr1.approver = "alice" ∧
    findDocument stC apr1.documentId = some docC ∧
    firstExecutionFor stC apr1.documentId = some execC ∧
    handle_approval_response stC 30 "alice" "rejected" (some "too costly") 1000 =
      (updateDocument
        (updateExecution
          (updateApproval stC { apr1 with
            status := "rejected"
            comments := some "too costly"
            reviewedAt := some 1000 })
          { execC with
            status := "failed"
            errorLog := some "Rejected by alice: too costly"
            completedAt := some 1000 })
        { docC with workflowStatus := some "rejected", currentApprover := Option.none },
       .rejectedRes "Workflow rejected by alice") :=
  ⟨rfl, rfl, rfl, rfl, by
    have h := c1_rejected_approval_fails_execution stC 30 "alice" (some "too costly")
      1000 apr1 docC execC rfl rfl rfl rfl
    exact h⟩

/-- The rule loop of `validate_document_data` threads the results dict
without ever touching `validated_data`. -/
theorem validate_loop_validatedData (rules : List ValidationRule)
    (data : ExtractedData) (acc : ValidationReport) :
    (rules.foldl (fun acc rule =>
      let fieldResult := apply_validation_rule data rule
      let acc1 := { acc with fieldValidations :=
        upsertFieldValidation acc.fieldValidations rule.fieldName fieldResult }
      if fieldResult.passed then { acc1 with passedRules := acc1.passedRules + 1 }
      else { acc1 with
        failedRules := acc1.failedRules + 1
        errors := acc1.errors ++ fieldResult.errors }) acc).validatedData =
    acc.validatedData := by
  induction rules generalizing acc with
  | nil => rfl
  | cons r rs ih =>
    rw [List.foldl_cons, ih]
    by_cases h : (apply_validation_rule data r).passed <;> simp [h]

/-- C9: `validate_document_data` is a pure report: the store — rule
catalog and documents — comes back exactly as it went in (the source
performs a single read and no save), and the `validated_data` it
returns is the input extracted data itself, untouched by the rule
loop. -/
theorem c9_validate_document_data_is_pure_report (st : SystemState)
    (extractedData : ExtractedData) (documentType : String) :
    validate_document_data_service st extractedData documentType =
      (st, validate_document_data st.rules extractedData documentType) ∧
    (validate_document_data st.rules extractedData documentType).validatedData =
      extractedData := by
  refine ⟨rfl, ?_⟩
  unfold validate_document_data
  dsimp only
  split
  · rfl
  · split
    · exact validate_loop_validatedData _ _ _
    · split
      · exact validate_loop_validatedData _ _ _
      · exact validate_loop_validatedData _ _ _

/-- The existence check of `create_rule` is exactly membership of the
key triple in the catalog's triple list. -/
theorem tripleExists_iff_mem (store : List ValidationRule) (dt fn rt : String) :
    tripleExists store dt fn rt = true ↔ (dt, fn, rt) ∈ ruleTriples store := by
  simp only [tripleExists, ruleTriples, List.any_eq_true, Bool.and_eq_true,
    beq_iff_eq, List.mem_map, Prod.mk.injEq]
  constructor
  · rintro ⟨r, hr, ⟨h1, h2⟩, h3⟩
    exact ⟨r, hr, h1, h2, h3⟩
  · rintro ⟨r, hr, h1, h2, h3⟩
    exact ⟨r, hr, ⟨h1, h2⟩, h3⟩

/-- `create_rule` never removes a triple from the catalog. -/
theorem create_rule_preserves_triple (store : List ValidationRule)
    (rd : RuleSuggestion) (dt fn rt : String)
    (h : tripleExists store dt fn rt = true) :
    tripleExists (create_rule store rd).1 dt fn rt = true := by
  unfold create_rule
  split
  · exact h
  · simp only [tripleExists, List.any_append] at h ⊢
    simp [h]

/-- After `create_rule`, the suggestion's triple is in the catalog —
either it already was, or the new row carries it. -/
theorem create_rule_makes_triple (store : List ValidationRule) (rd : RuleSuggestion) :
    tripleExists (create_rule store rd).1
      rd.documentType rd.fieldName rd.ruleType = true := by
  unfold create_rule
  split
  next h => exact h
  next h => simp [tripleExists, List.any_append, suggestionToRule]

/-- `create_rule` is a no-op when the triple already exists. -/
theorem create_rule_of_exists (store : List ValidationRule) (rd : RuleSuggestion)
    (h : tripleExists store rd.documentType rd.fieldName rd.ruleType = true) :
    create_rule store rd = (store, Option.none) := by
  unfold create_rule
  rw [if_pos h]

/-- The creation loop never removes a triple. -/
theorem create_rules_loop_preserves (rds : List RuleSuggestion)
    (store created : List ValidationRule) (dt fn rt : String)
    (h : tripleExists store dt fn rt = true) :
    tripleExists (create_rules_loop rds (store, created)).1 dt fn rt = true := by
  induction rds generalizing store created with
  | nil => exact h
  | cons rd rds ih =>
    have hp := create_rule_preserves_triple store rd dt fn rt h
    unfold create_rules_loop
    cases hc : create_rule store rd with
    | mk store1 createdOpt =>
      rw [hc] at hp
      cases createdOpt with
      | none => exact ih store1 created hp
      | some c => exact ih store1 (created ++ [c]) hp

/-- After the creation loop, every processed suggestion's triple is in
the catalog. -/
theorem create_rules_loop_all_present (rds : List RuleSuggestion)
    (store created : List ValidationRule) :
    ∀ rd ∈ rds, tripleExists (create_rules_loop rds (store, created)).1
      rd.documentType rd.fieldName rd.ruleType = true := by
  induction rds generalizing store created with
  | nil => intro rd hrd; cases hrd
  | cons rd0 rds ih =>
    intro rd hrd
    rcases List.mem_cons.mp hrd with hEq | hTail
    · subst hEq
      have hMade := create_rule_makes_triple store rd
      unfold create_rules_loop
      cases hc : create_rule store rd with
      | mk store1 createdOpt =>
        rw [hc] at hMade
        cases createdOpt with
        | none => exact create_rules_loop_preserves rds store1 created _ _ _ hMade
        | some c => exact create_rules_loop_preserves rds store1 (created ++ [c]) _ _ _ hMade
    · unfold create_rules_loop
      cases hc : create_rule store rd0 with
      | mk store1 createdOpt =>
        cases createdOpt with
        | none => exact ih store1 created rd hTail
        | some c => exact ih store1 (created ++ [c]) rd hTail

/-- The creation loop is a no-op when every suggestion's triple already
exists. -/
theorem create_rules_loop_noop (rds : List RuleSuggestion)
    (store created : List ValidationRule)
    (h : ∀ rd ∈ rds, tripleExists store rd.documentType rd.fieldName rd.ruleType = true) :
    create_rules_loop rds (store, created) = (store, created) := by
  induction rds with
  | nil => rfl
  | cons rd rds ih =>
    have h0 := create_rule_of_exists store rd (h rd (List.mem_cons_self rd rds))
    unfold create_rules_loop
    rw [h0]
    exact ih (fun x hx => h x (List.mem_cons_of_mem rd hx))

/-- `create_rule` keeps the catalog's triples pairwise distinct. -/
theorem create_rule_nodup (store : List ValidationRule) (rd : RuleSuggestion)
    (h : (ruleTriples store).Nodup) :
    (ruleTriples (create_rule store rd).1).Nodup := by
  unfold create_rule
  split
  · exact h
  next hne =>
    have hnotMem : (rd.documentType, rd.fieldName, rd.ruleType) ∉ ruleTriples store := by
      rw [← tripleExists_iff_mem]
      simpa using hne
    simp only [ruleTriples, List.map_append, List.map_cons, List.map_nil, suggestionToRule]
    rw [List.nodup_append]
    refine ⟨h, List.nodup_singleton _, ?_⟩
    intro t ht ht2
    simp only [List.mem_singleton] at ht2
    subst ht2
    exact hnotMem ht

/-- The creation loop keeps the catalog's triples pairwise distinct. -/
theorem create_rules_loop_nodup (rds : List RuleSuggestion)
    (store created : List ValidationRule) (h : (ruleTriples store).Nodup) :
    (ruleTriples (create_rules_loop rds (store, created)).1).Nodup := by
  induction rds generalizing store created with
  | nil => exact h
  | cons rd rds ih =>
    have hstep := create_rule_nodup store rd h
    unfold create_rules_loop
    cases hc : create_rule store rd with
    | mk store1 createdOpt =>
      rw [hc] at hstep
      cases createdOpt with
      | none => exact ih store1 created hstep
      | some c => exact ih store1 (created ++ [c]) hstep

/-- C7: running `auto_create_validation_rules` twice over an unchanged
document and rule store is idempotent — the second run creates nothing
(its `create_rule` finds every triple already present) and leaves the
catalog untouched — and a run never introduces a duplicate
`(document_type, field_name, rule_type)` triple into a catalog that had
none. -/
theorem c7_auto_create_idempotent (store : List ValidationRule)
    (suggestions : List RuleSuggestion) (confidenceThreshold : ℚ)
    (h : (ruleTriples store).Nodup) :
    (auto_create_validation_rules
        (auto_create_validation_rules store suggestions confidenceThreshold).1
        suggestions confidenceThreshold).2 = [] ∧
    (auto_create_validation_rules
        (auto_create_validation_rules store suggestions confidenceThreshold).1
        suggestions confidenceThreshold).1 =
      (auto_create_validation_rules store suggestions confidenceThreshold).1 ∧
    (ruleTriples (auto_create_validation_rules store suggestions confidenceThreshold).1).Nodup := by
  unfold auto_create_validation_rules
  dsimp only
  have hAll := create_rules_loop_all_present
    (suggestions.filter (fun s => confidenceThreshold ≤ s.confidence)) store []
  have hNoop := create_rules_loop_noop
    (suggestions.filter (fun s => confidenceThreshold ≤ s.confidence))
    (create_rules_loop (suggestions.filter (fun s => confidenceThreshold ≤ s.confidence))
      (store, [])).1 [] hAll
  refine ⟨?_, ?_, ?_⟩
  · rw [hNoop]
  · rw [hNoop]
  · exact create_rules_loop_nodup _ store [] h

/-- A concrete high-confidence suggestion for the C7 witness. -/
def suggestionC : RuleSuggestion := {
  name := "total_type_check"
  documentType := "invoice"
  fieldName := "total"
  ruleType := "data_type"
  rulePattern := "currency"
  description := "Auto-generated data_type rule for total based on pattern analysis"
  confidence := 19/20 }

/-- Witness for C7: one suggestion over an empty catalog — the first
run inserts one rule, the second run inserts nothing and leaves the
catalog as it was. -/
theorem c7_auto_create_idempotent_witness :
    (ruleTriples []).Nodup ∧
    ((auto_create_validation_rules
        (auto_create_validation_rules [] [suggestionC] (9/10)).1
        [suggestionC] (9/10)).2 = [] ∧
     (auto_create_validation_rules
        (auto_create_validation_rules [] [suggestionC] (9/10)).1
        [suggestionC] (9/10)).1 =
       (auto_create_validation_rules [] [suggestionC] (9/10)).1 ∧
     (ruleTriples (auto_create_validation_rules [] [suggestionC] (9/10)).1).Nodup) ∧
    (auto_create_validation_rules [] [suggestionC] (9/10)).1.length = 1 :=
  ⟨List.nodup_nil,
    c7_auto_create_idempotent [] [suggestionC] (9/10) List.nodup_nil,
    by with_unfolding_all decide⟩

/-- Membership in the `distinctKeys` fold: everything from the
accumulator or the traversed list, nothing else. -/
theorem mem_distinctKeys_foldl (l acc : List String) (x : String) :
    x ∈ l.foldl (fun acc s => if acc.contains s then acc else acc ++ [s]) acc ↔
      x ∈ acc ∨ x ∈ l := by
  induction l generalizing acc with
  | nil => simp
  | cons s t ih =>
    rw [List.foldl_cons]
    by_cases hc : acc.contains s
    · rw [if_pos hc, ih]
      have hs : s ∈ acc := by simpa using hc
      simp only [List.mem_cons]
      constructor
      · rintro (hx | hx)
        · exact Or.inl hx
        · exact Or.inr (Or.inr hx)
      · rintro (hx | hx | hx)
        · exact Or.inl hx
        · exact Or.inl (hx ▸ hs)
        · exact Or.inr hx
    · rw [if_neg hc, ih]
      simp only [List.mem_append, List.mem_singleton, List.mem_cons]
      tauto

/-- `distinctKeys` of a non-empty list is non-empty. -/
theorem distinctKeys_ne_nil (l : List String) (h : l ≠ []) :
    distinctKeys l ≠ [] := by
  cases l with
  | nil => exact absurd rfl h
  | cons s t =>
    intro hEq
    have hs : s ∈ distinctKeys (s :: t) :=
      (mem_distinctKeys_foldl (s :: t) [] s).mpr
        (Or.inr (List.mem_cons_self s t))
    rw [hEq] at hs
    cases hs

/-- `min(...)` over a fold is at least 2 exactly when every entry is. -/
theorem two_le_foldl_min (l : List ℕ) (a : ℕ) :
    2 ≤ l.foldl min a ↔ 2 ≤ a ∧ ∀ x ∈ l, 2 ≤ x := by
  induction l generalizing a with
  | nil => simp
  | cons x t ih =>
    rw [List.foldl_cons, ih]
    simp only [le_min_iff, List.mem_cons]
    constructor
    · rintro ⟨⟨ha, hx⟩, hall⟩
      exact ⟨ha, fun y hy => hy.elim (fun hEq => hEq ▸ hx) (hall y)⟩
    · rintro ⟨ha, hall⟩
      exact ⟨⟨ha, hall x (Or.inl rfl)⟩, fun y hy => hall y (Or.inr hy)⟩

/-- C8: for a non-empty list of cleaned field values, the enum analyzer
returns a suggestion exactly when the distinct stringified values
number at most 10, are strictly fewer than 30% of the sample count, and
each occurs at least twice; the reported confidence is
`1 − unique/total`. -/
theorem c8_enum_analyzer_characterization (values : List Value) (h : values ≠ []) :
    ((analyze_enum_patterns values).isSome = true ↔
      ((distinctKeys (values.map pyStr)).length ≤ 10 ∧
       10 * (distinctKeys (values.map pyStr)).length < 3 * values.length ∧
       ∀ u ∈ distinctKeys (values.map pyStr), 2 ≤ (values.map pyStr).count u)) ∧
    (∀ r, analyze_enum_patterns values = some r →
      r.confidence =
        1 - ((distinctKeys (values.map pyStr)).length : ℚ) / (values.length : ℚ)) := by
  have hne : distinctKeys (values.map pyStr) ≠ [] :=
    distinctKeys_ne_nil _ (by simpa using h)
  unfold analyze_enum_patterns
  dsimp only
  by_cases hcond : (distinctKeys (values.map pyStr)).length ≤ 10 ∧
      10 * (distinctKeys (values.map pyStr)).length < 3 * values.length
  · rw [if_pos hcond]
    cases hu : distinctKeys (values.map pyStr) with
    | nil => exact absurd hu hne
    | cons u0 us =>
      rw [hu] at hcond
      dsimp only
      by_cases hmin : 2 ≤ (us.map (fun u => (values.map pyStr).count u)).foldl min
          ((values.map pyStr).count u0)
      · rw [if_pos hmin]
        have hforall := (two_le_foldl_min _ _).mp hmin
        constructor
        · simp only [Option.isSome_some]
          refine ⟨fun _ => ⟨hcond.1, hcond.2, ?_⟩, fun _ => trivial⟩
          intro u hu2
          rcases List.mem_cons.mp hu2 with hEq | hTail
          · exact hEq ▸ hforall.1
          · exact hforall.2 _ (List.mem_map_of_mem _ hTail)
        · intro r hr
          cases hr
          rfl
      · rw [if_neg hmin]
        constructor
        · simp only [Option.isSome_none, Bool.false_eq_true, false_iff]
          rintro ⟨_, _, hforall⟩
          apply hmin
          rw [two_le_foldl_min]
          refine ⟨hforall u0 (List.mem_cons_self u0 us), ?_⟩
          intro x hx
          rcases List.mem_map.mp hx with ⟨u, hu3, hx2⟩
          exact hx2 ▸ hforall u (List.mem_cons_of_mem u0 hu3)
        · intro r hr
          exact absurd hr (by simp)
  · rw [if_neg hcond]
    constructor
    · simp only [Option.isSome_none, Bool.false_eq_true, false_iff]
      rintro ⟨h1, h2, _⟩
      exact hcond ⟨h1, h2⟩
    · intro r hr
      exact absurd hr (by simp)

/-- Witness for C8: eight samples over the two distinct strings `a`/`b`
(each four times) are an enum candidate with confidence `3/4`. -/
theorem c8_enum_analyzer_characterization_witness :
    ([Value.str "a", Value.str "a", Value.str "a", Value.str "a",
      Value.str "b", Value.str "b", Value.str "b", Value.str "b"] : List Value) ≠ [] ∧
    (analyze_enum_patterns
      [Value.str "a", Value.str "a", Value.str "a", Value.str "a",
       Value.str "b", Value.str "b", Value.str "b", Value.str "b"]).isSome = true ∧
    ((analyze_enum_patterns
      [Value.str "a", Value.str "a", Value.str "a", Value.str "a",
       Value.str "b", Value.str "b", Value.str "b", Value.str "b"]).map
        (fun r => r.confidence)) = some (3/4) := by
  refine ⟨by simp, ?_, ?_⟩
  · exact (c8_enum_analyzer_characterization
      [Value.str "a", Value.str "a", Value.str "a", Value.str "a",
       Value.str "b", Value.str "b", Value.str "b", Value.str "b"] (by simp)).1.mpr
      (by with_unfolding_all decide)
  · have hc := (c8_enum_analyzer_characterization
      [Value.str "a", Value.str "a", Value.str "a", Value.str "a",
       Value.str "b", Value.str "b", Value.str "b", Value.str "b"] (by simp)).2
    have hs := (c8_enum_analyzer_characterization
      [Value.str "a", Value.str "a", Value.str "a", Value.str "a",
       Value.str "b", Value.str "b", Value.str "b", Value.str "b"] (by simp)).1.mpr
      (by with_unfolding_all decide)
    cases hr : analyze_enum_patterns
      [Value.str "a", Value.str "a", Value.str "a", Value.str "a",
       Value.str "b", Value.str "b", Value.str "b", Value.str "b"] with
    | none =>
      rw [hr] at hs
      cases hs
    | some r =>
      have hconf := hc r hr
      show some r.confidence = some (3/4)
      rw [hconf]
      have hd : distinctKeys (List.map pyStr
          [Value.str "a", Value.str "a", Value.str "a", Value.str "a",
           Value.str "b", Value.str "b", Value.str "b", Value.str "b"]) = ["a", "b"] := by
        with_unfolding_all decide
      rw [hd]
      norm_num

/-- Evaluation of the range validator with pattern `10,20` on a float
value: bounds parse to 10 and 20 and the comparison decides the
outcome. -/
theorem validate_range_10_20_num (rule : ValidationRule) (q : ℚ) :
    validate_range (some (Value.num false q)) "10,20" rule =
      .ok (if 10 ≤ q ∧ q ≤ 20 then (true, "")
           else (false, "Field " ++ rule.fieldName ++ " value " ++ ratRepr q ++
             " is outside valid range: 10.0 to 20.0")) := by
  have hcomma : strContainsSub "10,20" "," = true := by decide
  have hsplit : splitFirst "10,20" ',' = some ("10", "20") := by decide
  have hstrip10 : pyStripStr "10" = "10" := by decide
  have hstrip20 : pyStripStr "20" = "20" := by decide
  have hp10 : parseFloatStr "10" = some 10 := by with_unfolding_all decide
  have hp20 : parseFloatStr "20" = some 20 := by with_unfolding_all decide
  have hr10 : ratRepr 10 = "10.0" := by with_unfolding_all decide
  have hr20 : ratRepr 20 = "20.0" := by with_unfolding_all decide
  unfold validate_range
  rw [hcomma]
  simp only [if_true, hsplit]
  rw [hstrip10, hstrip20]
  simp only [String.reduceEq, if_false, hp10, hp20, reduceIte]
  simp only [pyFloat, bind, Except.bind, pure, Except.pure]
  simp only [Bool.and_eq_true, decide_eq_true_eq, hr10, hr20]
  by_cases hq : 10 ≤ q ∧ q ≤ 20
  · rw [if_pos hq, if_pos hq]
  · rw [if_neg hq, if_neg hq]
    have hmsg : ("Field " ++ rule.fieldName ++ " value " ++ ratRepr q ++
          " is outside valid range: " ++ "10.0" ++ " to " ++ "20.0") =
        ("Field " ++ rule.fieldName ++ " value " ++ ratRepr q ++
          " is outside valid range: 10.0 to 20.0") := by
      apply String.ext
      simp [String.data_append]
    rw [hmsg]

/-- Evaluation of the range validator with pattern `10,20` on the
non-numeric string `abc`: the `float()` `ValueError` is caught by the
validator's own handler and reported as an invalid-numeric-value
failure. -/
theorem validate_range_10_20_str_abc (rule : ValidationRule) :
    validate_range (some (Value.str "abc")) "10,20" rule =
      .ok (false, "Invalid numeric value for range validation in rule " ++
        rule.name ++ ": could not convert string to float: abc") := by
  have hcomma : strContainsSub "10,20" "," = true := by decide
  have hsplit : splitFirst "10,20" ',' = some ("10", "20") := by decide
  have hstrip10 : pyStripStr "10" = "10" := by decide
  have hstrip20 : pyStripStr "20" = "20" := by decide
  have hp10 : parseFloatStr "10" = some 10 := by with_unfolding_all decide
  have hp20 : parseFloatStr "20" = some 20 := by with_unfolding_all decide
  have habc : parseFloatStr "abc" = Option.none := by decide
  unfold validate_range
  rw [hcomma]
  simp only [if_true, hsplit]
  rw [hstrip10, hstrip20]
  simp only [String.reduceEq, if_false, hp10, hp20, reduceIte]
  simp only [pyFloat, habc, bind, Except.bind, pure, Except.pure]
  have hmsg : ("Invalid numeric value for range validation in rule " ++ rule.name ++ ": " ++
        ("could not convert string to float: " ++ "abc")) =
      ("Invalid numeric value for range validation in rule " ++ rule.name ++
        ": could not convert string to float: abc") := by
    apply String.ext
    simp [String.data_append]
  rw [hmsg]

/-- The two failure messages of the range validator are never the same
string: one starts with `Invalid`, the other with `Field`. -/
theorem range_failure_messages_distinct (n f v : String) :
    ("Invalid numeric value for range validation in rule " ++ n ++
      ": could not convert string to float: abc") ≠
    ("Field " ++ f ++ " value " ++ v ++
      " is outside valid range: 10.0 to 20.0") := by
  intro hEq
  have hdata := congrArg String.data hEq
  simp only [String.data_append] at hdata
  have hhead := congrArg List.head? hdata
  simp at hhead

/-- C6: for every range rule whose pattern is `10,20`, a field value of
`15` passes; `9.99` and `20.01` fail with the out-of-range error; and a
non-numeric value fails with the `ValueError`-class invalid-numeric
error, a different message than the out-of-range one — a coercion
failure is a reported field error, never a silent pass. -/
theorem c6_range_rule_10_20 (rule : ValidationRule)
    (_hType : rule.ruleType = "range") (hPat : rule.rulePattern = "10,20") :
    validate_range (some (Value.num false 15)) rule.rulePattern rule =
      .ok (true, "") ∧
    validate_range (some (Value.num false (999/100))) rule.rulePattern rule =
      .ok (false, "Field " ++ rule.fieldName ++ " value " ++ ratRepr (999/100) ++
        " is outside valid range: 10.0 to 20.0") ∧
    validate_range (some (Value.num false (2001/100))) rule.rulePattern rule =
      .ok (false, "Field " ++ rule.fieldName ++ " value " ++ ratRepr (2001/100) ++
        " is outside valid range: 10.0 to 20.0") ∧
    validate_range (some (Value.str "abc")) rule.rulePattern rule =
      .ok (false, "Invalid numeric value for range validation in rule " ++
        rule.name ++ ": could not convert string to float: abc") ∧
    ("Invalid numeric value for range validation in rule " ++ rule.name ++
      ": could not convert string to float: abc") ≠
    ("Field " ++ rule.fieldName ++ " value " ++ ratRepr (999/100) ++
      " is outside valid range: 10.0 to 20.0") := by
  rw [hPat]
  refine ⟨?_, ?_, ?_, validate_range_10_20_str_abc rule,
    range_failure_messages_distinct rule.name rule.fieldName (ratRepr (999/100))⟩
  · rw [validate_range_10_20_num rule 15]
    norm_num
  · rw [validate_range_10_20_num rule (999/100)]
    norm_num
  · rw [validate_range_10_20_num rule (2001/100)]
    norm_num

/-- Witness for C6: the fixture range rule at value 15. -/
theorem c6_range_rule_10_20_witness :
    ruleRangeC.ruleType = "range" ∧ ruleRangeC.rulePattern = "10,20" ∧
    validate_range (some (Value.num false 15)) ruleRangeC.rulePattern ruleRangeC =
      .ok (true, "") :=
  ⟨rfl, rfl, (c6_range_rule_10_20 ruleRangeC rfl rfl).1⟩
